import Mathlib

/-!
# Verification of the quota-aware AI router: configuration helper and Cloudflare adapter

This file gives a shallow embedding, in Lean 4, of the two source modules the
claims are about:

* `src/helpers/AIProviderConfig.helper.ts` — parsing, validation, caching and
  lookup of the `AI_PROVIDER_CONFIG` provider directory; and
* the Cloudflare Workers AI adapter (`CloudflareWorkersAIService`) — its
  `execute`, `repairInvalidResponse`, `requestCloudflare`,
  `extractCloudflareCredentials`, `extractQuotaMeta`, `parseResetHeader`,
  `toNumber`, `parseResponseContent`, `normalizeMessageContent` and
  `buildRepairPrompt` members.

Platform facilities that are not code of this repository are treated as
parameters of the embedding wherever their exact behaviour is not forced by a
claim: `JSON.parse` is an arbitrary function `String → Option Json`
(`none` = throws), `Date.parse` an arbitrary `String → Option Int`
(`none` = NaN), `Date.now()` an arbitrary `Int`, the network (`fetch`) an
arbitrary function from request bodies to responses, and
`normalizeStructuredSchema` (a helper whose source is not part of the three
files under verification) an arbitrary function on schemas. JavaScript
*value* coercions performed by the source (`Number(x)`, `String(x)`,
`JSON.stringify(x)`, truthiness, `??`) are modelled concretely below on a
`Json` value type whose numbers are exact integers; the model covers decimal
integer literals, which is the domain every concrete input in this file stays
inside.

Effects are made explicit: a JavaScript function that can `throw` becomes a
Lean function into `Except`; the module-level configuration cache becomes an
explicit `CacheState` value threaded in and out; the adapter's `execute`
additionally returns the list of upstream request bodies it issued, so that
claims about *which* network calls happen are statable.
-/

/-! ## A JSON value model -/

/-- A JSON / JavaScript structured value. Numbers are modelled as exact
integers (`Int`); every value any concrete input in this file manipulates is
integer-valued. Object member lists keep insertion order, as JavaScript
objects do. -/
inductive Json where
  | null
  | bool (b : Bool)
  | num (n : Int)
  | str (s : String)
  | arr (items : List Json)
  | obj (members : List (String × Json))
deriving Repr, Inhabited

/-- Member lookup on a JavaScript value: `v[k]` for a plain property read.
`none` models the result `undefined` — a missing key, or any read on a
non-object. A member whose value is JSON `null` is returned as
`some .null` (present, null-valued). -/
def Json.getField : Json → String → Option Json
  | .obj members, k => (members.find? (fun kv => kv.1 = k)).map (·.2)
  | _, _ => none

/-- JavaScript nullish coalescing `a ?? b`: takes `a` unless it is
`undefined` (`none`) or `null` (`some .null`). -/
def jsCoalesce (a b : Option Json) : Option Json :=
  match a with
  | none => b
  | some .null => b
  | some v => some v

/-! ### JavaScript string/number coercions (modelled) -/

/-- Whitespace, for the JavaScript string model. -/
def jsIsWs (c : Char) : Bool := c == ' ' || c == '\t' || c == '\n' || c == '\r'

/-- `s.trim()`: strip leading and trailing whitespace. (A structural model of
the JavaScript method; the core `String.trim` is definitionally opaque.) -/
def jsTrim (s : String) : String :=
  ⟨((s.toList.dropWhile jsIsWs).reverse.dropWhile jsIsWs).reverse⟩

/-- One character of `toLowerCase` (ASCII case mapping, the domain every
identity in this development lives in). -/
def jsLowerChar (c : Char) : Char :=
  if 'A' ≤ c ∧ c ≤ 'Z' then Char.ofNat (c.toNat + 32) else c

/-- `s.toLowerCase()`. -/
def jsToLower (s : String) : String := ⟨s.toList.map jsLowerChar⟩

/-- `s.startsWith(p)` (structural model of the JavaScript test). -/
def strStartsWith (s p : String) : Bool := p.toList.isPrefixOf s.toList

/-- Digits-to-number accumulator. -/
def digitsToNat (ds : List Char) : Nat :=
  ds.foldl (fun acc c => acc * 10 + (c.toNat - Char.toNat '0')) 0

/-- `Number(s)` for a string `s`, restricted to the values this development
exercises: the empty / all-whitespace string coerces to `0`, an optionally
signed decimal integer literal to its value, and everything else
(including `"Infinity"`, which is non-finite anyway) to `none`, standing
for NaN-or-non-finite — the case both source `toNumber`s map to
`undefined`/`throw`. -/
def jsStringToNumber (s : String) : Option Int :=
  let t := jsTrim s
  if t = "" then some 0
  else
    let (sign, digits) :=
      if strStartsWith t "-" then ((-1 : Int), t.drop 1)
      else if strStartsWith t "+" then ((1 : Int), t.drop 1)
      else ((1 : Int), t)
    if digits ≠ "" ∧ digits.toList.all (·.isDigit) then
      some (sign * (digitsToNat digits.toList : Int))
    else none

/-- `Number(v)` for a JavaScript value `v` (`none` both for the `undefined`
argument and for a NaN/non-finite result): `undefined → NaN`, `null → 0`,
booleans to `0`/`1`, numbers to themselves, strings via
`jsStringToNumber`. Arrays and objects (whose `ToPrimitive` detour no
concrete input here takes) are mapped to `none`. -/
def jsToNumber : Option Json → Option Int
  | none => none
  | some .null => some 0
  | some (.bool b) => some (if b then 1 else 0)
  | some (.num n) => some n
  | some (.str s) => jsStringToNumber s
  | some (.arr _) => none
  | some (.obj _) => none

/-- Escape of one character inside a JSON string literal (the cases
`JSON.stringify` must escape that occur in this development). -/
def jsonEscapeChar (c : Char) : String :=
  if c = '"' then "\\\""
  else if c = '\\' then "\\\\"
  else if c = '\n' then "\\n"
  else String.singleton c

def jsonEscape (s : String) : String :=
  String.join (s.toList.map jsonEscapeChar)

mutual
/-- `JSON.stringify(v)` (for defined values; the source only applies it to
defined values). -/
def jsonStringify : Json → String
  | .null => "null"
  | .bool true => "true"
  | .bool false => "false"
  | .num n => toString n
  | .str s => "\"" ++ jsonEscape s ++ "\""
  | .arr items => "[" ++ jsonStringifyArr items ++ "]"
  | .obj members => "\x7b" ++ jsonStringifyObj members ++ "\x7d"
def jsonStringifyArr : List Json → String
  | [] => ""
  | [x] => jsonStringify x
  | x :: rest => jsonStringify x ++ "," ++ jsonStringifyArr rest
def jsonStringifyObj : List (String × Json) → String
  | [] => ""
  | [(k, v)] => "\"" ++ jsonEscape k ++ "\":" ++ jsonStringify v
  | (k, v) :: rest =>
      "\"" ++ jsonEscape k ++ "\":" ++ jsonStringify v ++ "," ++ jsonStringifyObj rest
end

mutual
/-- `String(v)`: JavaScript string coercion of a defined value. -/
def jsToString : Json → String
  | .null => "null"
  | .bool true => "true"
  | .bool false => "false"
  | .num n => toString n
  | .str s => s
  | .arr items => jsToStringArr items
  | .obj _ => "[object Object]"
def jsToStringArr : List Json → String
  | [] => ""
  | [x] => jsToStringElem x
  | x :: rest => jsToStringElem x ++ "," ++ jsToStringArr rest
/-- One array element under `Array.prototype.toString`: `null` renders empty. -/
def jsToStringElem : Json → String
  | .null => ""
  | v => jsToString v
end

/-! ## `src/helpers/AIProviderConfig.helper.ts` -/

namespace ConfigHelper

/-- The validated shape of one provider entry (`AIProviderConfigEntry` in the
source). `validateEntry` always supplies `enabled`, so the field is total
here. Numeric fields are exact integers (see the header note on numbers). -/
structure AIProviderConfigEntry where
  provider : String
  apiKey : String
  model : String
  priority : Int
  dailyBudgetRequests : Int
  dailyBudgetTokens : Int
  maxConcurrency : Int
  maxRequestsPerMinute : Int
  enabled : Bool
deriving Repr, DecidableEq

/-- The helper's `toNumber`: `Number(value)` then a finiteness check, throwing
on NaN/non-finite. The argument is a property read, so `none` is
`undefined`. -/
def toNumber (value : Option Json) : Except String Int :=
  match jsToNumber value with
  | some n => .ok n
  | none =>
      let shown := match value with
        | none => "undefined"
        | some v => jsToString v
      .error ("Invalid number value: " ++ shown)

/-- The `enabled` expression of `validateEntry`: a boolean field is taken
as-is, an absent one defaults to `true`, and any other defined value is
`String(·)`-converted, lowercased and compared against `"false"`. -/
def enabledFlag (v : Option Json) : Bool :=
  match v with
  | some (.bool b) => b
  | none => true
  | some v => jsToLower (jsToString v) ≠ "false"

/-- `validateEntry`. The wildcard branch keeps the JavaScript typing: arrays
have `typeof === "object"` and are truthy, so an array entry passes the
object guard and then fails the `provider` check (its property reads give
`undefined`); `null`, booleans, numbers and strings fail the guard itself. -/
def validateEntry (entry : Json) : Except String AIProviderConfigEntry :=
  match entry with
  | .null => .error "Each AI provider config entry must be an object"
  | .bool _ => .error "Each AI provider config entry must be an object"
  | .num _ => .error "Each AI provider config entry must be an object"
  | .str _ => .error "Each AI provider config entry must be an object"
  | e =>
    match jsCoalesce (e.getField "provider") (e.getField "serviceName") with
    | some (.str rawProvider) =>
      if jsTrim rawProvider = "" then
        .error "AI provider config requires non-empty 'provider'"
      else
        let provider := jsToLower (jsTrim rawProvider)
        match e.getField "apiKey" with
        | some (.str apiKey) =>
          match e.getField "model" with
          | some (.str model) =>
            if jsTrim model = "" then
              .error ("AI provider '" ++ provider ++ "' requires non-empty 'model'")
            else
              match toNumber (e.getField "priority") with
              | .error m => .error m
              | .ok priority =>
              match toNumber (e.getField "dailyBudgetRequests") with
              | .error m => .error m
              | .ok dailyBudgetRequests =>
              match toNumber (e.getField "dailyBudgetTokens") with
              | .error m => .error m
              | .ok dailyBudgetTokens =>
              match toNumber (e.getField "maxConcurrency") with
              | .error m => .error m
              | .ok maxConcurrency =>
              match toNumber (e.getField "maxRequestsPerMinute") with
              | .error m => .error m
              | .ok maxRequestsPerMinute =>
              .ok {
                provider := provider
                apiKey := apiKey
                model := jsTrim model
                priority := priority
                dailyBudgetRequests := dailyBudgetRequests
                dailyBudgetTokens := dailyBudgetTokens
                maxConcurrency := maxConcurrency
                maxRequestsPerMinute := maxRequestsPerMinute
                enabled := enabledFlag (e.getField "enabled")
              }
          | _ => .error ("AI provider '" ++ provider ++ "' requires non-empty 'model'")
        | _ => .error ("AI provider '" ++ provider ++ "' requires string 'apiKey'")
    | _ => .error "AI provider config requires non-empty 'provider'"

/-- `parsed.map(validateEntry)`: JavaScript `map` over a throwing callback
stops at the first failing element. -/
def validateAll : List Json → Except String (List AIProviderConfigEntry)
  | [] => .ok []
  | e :: rest =>
    match validateEntry e with
    | .error m => .error m
    | .ok p =>
      match validateAll rest with
      | .error m => .error m
      | .ok ps => .ok (p :: ps)

/-- The duplicate scan over `providerNames : Set<string>`: returns the first
provider identity already seen, or `none` when all are distinct. -/
def findDuplicateProvider : List AIProviderConfigEntry → List String → Option String
  | [], _ => none
  | p :: rest, seen =>
    if p.provider ∈ seen then some p.provider
    else findDuplicateProvider rest (p.provider :: seen)

/-- The module-level mutable cache (`cacheRaw` / `cacheParsed`), made an
explicit value. -/
structure CacheState where
  cacheRaw : Option String
  cacheParsed : Option (List AIProviderConfigEntry)
deriving Repr, DecidableEq

/-- The uncached path of `readAIProviderConfig`: parse, validate each entry,
reject duplicates, then fill the cache. -/
def parseAndCache (parse : String → Option Json) (r : String) :
    Except String (List AIProviderConfigEntry × CacheState) :=
  match parse r with
  | none => .error "AI_PROVIDER_CONFIG must be valid JSON"
  | some (.arr entries) =>
    match validateAll entries with
    | .error m => .error m
    | .ok providers =>
      match findDuplicateProvider providers [] with
      | some dup => .error ("Duplicated provider in AI_PROVIDER_CONFIG: " ++ dup)
      | none => .ok (providers, ⟨some r, some providers⟩)
  | some _ => .error "AI_PROVIDER_CONFIG must be a JSON array"

/-- `readAIProviderConfig`. `raw` is `process.env.AI_PROVIDER_CONFIG`
(`none` = unset); `!raw` also rejects the empty string. The cache is
consulted only when `cacheParsed` is set (an empty cached array is still
truthy) and `cacheRaw` is strictly equal to `raw`. -/
def readAIProviderConfig (parse : String → Option Json) (raw : Option String)
    (st : CacheState) : Except String (List AIProviderConfigEntry × CacheState) :=
  match raw with
  | none => .error "Missing AI_PROVIDER_CONFIG environment variable"
  | some r =>
    if r = "" then .error "Missing AI_PROVIDER_CONFIG environment variable"
    else if st.cacheParsed.isSome ∧ st.cacheRaw = some r then
      .ok (st.cacheParsed.getD [], st)
    else parseAndCache parse r

/-- `findAIProviderByProvider`. -/
def findAIProviderByProvider (parse : String → Option Json) (raw : Option String)
    (st : CacheState) (provider : String) :
    Except String (Option AIProviderConfigEntry × CacheState) :=
  (readAIProviderConfig parse raw st).map fun res =>
    (res.1.find? (fun p => p.provider == jsToLower provider && p.enabled != false), res.2)

/-- `findAIProviderByService`: the backward-compat alias. -/
def findAIProviderByService (parse : String → Option Json) (raw : Option String)
    (st : CacheState) (provider : String) :
    Except String (Option AIProviderConfigEntry × CacheState) :=
  findAIProviderByProvider parse raw st provider

end ConfigHelper

/-! ## Error values -/

/-- The fixed error taxonomy (spec §7). -/
inductive AIErrorCode where
  | limitExceeded
  | authError
  | invalidResponse
  | configError
  | providerError
deriving Repr, DecidableEq

/-- The argument object the adapter passes to `buildAIProviderError`. -/
structure AIProviderErrorInput where
  provider : String
  status : Option Int
  message : String
deriving Repr, DecidableEq

/-- A classified provider error (spec §3: code from the fixed taxonomy,
provider identity, optional upstream status, message; `rawMessage` is the
raw-message field the adapter's repair path reads from a received error). -/
structure AIProviderError where
  code : AIErrorCode
  provider : String
  status : Option Int
  message : String
  rawMessage : String
deriving Repr, DecidableEq

/-- Modelled from the spec: `BuildAIProviderError.helper.ts` is not among the
source files under verification (the spec lists it as the external
"construction of typed error values" collaborator). Per §7 it classifies
upstream signals into the fixed taxonomy — 401/403 to `AUTH_ERROR`,
missing-required-field messages to `CONFIG_ERROR`, everything else here to
`PROVIDER_ERROR` — and per §3 the result carries the provider identity, the
optional upstream status and the human-readable message unchanged. The
claims below depend only on the result being a classified `AIProviderError`
carrying those fields. -/
def buildAIProviderError (input : AIProviderErrorInput) : AIProviderError :=
  let code : AIErrorCode :=
    if input.status = some 401 ∨ input.status = some 403 then .authError
    else if strStartsWith input.message "Missing " then .configError
    else .providerError
  { code := code
    provider := input.provider
    status := input.status
    message := input.message
    rawMessage := input.message }

/-- A thrown JavaScript value, as thrown by the adapter: either a classified
`AIProviderError` (`throw buildAIProviderError(...)`) or a plain `Error`
(`throw new Error(message)`), identified by its message. -/
inductive Thrown where
  | provider (e : AIProviderError)
  | plain (message : String)
deriving Repr, DecidableEq

/-! ## The Cloudflare Workers AI adapter (`CloudflareWorkersAIService`) -/

namespace CloudflareWorkersAI

/-- `AIExecutionMeta` (src/ai.interface.ts). -/
structure AIExecutionMeta where
  model : Option String
  remainingRequests : Option Int
  remainingTokens : Option Int
  resetAtUnixMs : Option Int
deriving Repr, DecidableEq

/-- `AIExecutionResult` (src/ai.interface.ts); `data` is the parsed JSON. -/
structure AIExecutionResult where
  data : Json
  meta : AIExecutionMeta
deriving Repr

structure ChatMessage where
  role : String
  content : String
deriving Repr, DecidableEq

/-- The JSON body `execute` hands to `requestCloudflare` (and so to `fetch`):
model, chat messages, and the optional `response_format` object. -/
structure RequestBody where
  model : String
  messages : List ChatMessage
  response_format : Option Json
deriving Repr

/-- What `fetch` yields once the body text is read: status info and raw
text plus response headers. Stands for the platform response object. -/
structure NetResponse where
  ok : Bool
  status : Int
  statusText : String
  bodyText : String
  headers : List (String × String)
deriving Repr, DecidableEq

/-- `Headers.get`: case-insensitive lookup, `null` when absent. -/
def headersGet (headers : List (String × String)) (name : String) : Option String :=
  (headers.find? (fun kv => jsToLower kv.1 == jsToLower name)).map (·.2)

/-- The adapter's private `toNumber(value: string | null)`: `undefined` on a
falsy argument (`null` or the empty string), else `Number(value)` guarded
by `Number.isFinite`. -/
def toNumber (value : Option String) : Option Int :=
  match value with
  | none => none
  | some s => if s = "" then none else jsStringToNumber s

/-- `parseResetHeader`: falsy → `undefined`; a finite numeric value above
10_000_000_000 is already an epoch, a smaller one is seconds-from-now;
otherwise fall back to `Date.parse` (`dateParse`, `none` = NaN). -/
def parseResetHeader (now : Int) (dateParse : String → Option Int)
    (value : Option String) : Option Int :=
  match value with
  | none => none
  | some s =>
    if s = "" then none
    else
      match jsStringToNumber s with
      | some n => if n > 10000000000 then some n else some (now + n * 1000)
      | none => dateParse s

/-- `a ?? b` for `string | null` values: `null` (`none`) falls back, any
string — the empty string included — does not. -/
def strCoalesce (a b : Option String) : Option String :=
  match a with
  | some v => some v
  | none => b

/-- `extractQuotaMeta`: reads the rate-limit headers, primary name first and
generic name as `??`-fallback (the fallback is skipped only for `null`,
not for an empty-string header). -/
def extractQuotaMeta (now : Int) (dateParse : String → Option Int)
    (headers : List (String × String)) : AIExecutionMeta :=
  let remReqHeader :=
    strCoalesce (headersGet headers "x-ratelimit-remaining-requests")
      (headersGet headers "x-ratelimit-remaining")
  let resetHeader :=
    strCoalesce (headersGet headers "x-ratelimit-reset-requests")
      (headersGet headers "x-ratelimit-reset")
  { model := none
    remainingRequests := toNumber remReqHeader
    remainingTokens := toNumber (headersGet headers "x-ratelimit-remaining-tokens")
    resetAtUnixMs := parseResetHeader now dateParse resetHeader }

/-- The record `requestCloudflare` resolves with. -/
structure CFResult where
  ok : Bool
  status : Int
  statusText : String
  message : String
  payloadText : String
  payload : Json
  meta : AIExecutionMeta
deriving Repr

/-- `requestCloudflare`: performs the `fetch` (the oracle `net`, a function
of the credentials and the request body), reads the raw text, parses it
leniently (`try JSON.parse catch → empty object`), computes the message
(`payload?.error?.message ?? "…failed with status …"`; a non-string
`error.message` value would be carried as-is by the source, which this
string-typed model renders via `String(·)`), and extracts quota meta from
the response headers. -/
def requestCloudflare (parse : String → Option Json) (now : Int)
    (dateParse : String → Option Int)
    (net : String → String → RequestBody → NetResponse)
    (apiToken accountId : String) (body : RequestBody) : CFResult :=
  let response := net accountId apiToken body
  let raw := response.bodyText
  let payload := (parse raw).getD (.obj [])
  let errMsg : Option Json :=
    match payload.getField "error" with
    | none => none
    | some .null => none
    | some e =>
      match e.getField "message" with
      | none => none
      | some .null => none
      | some m => some m
  let message :=
    match errMsg with
    | some m => jsToString m
    | none =>
      let st := response.status
      s!"Cloudflare Workers AI request failed with status {st}"
  { ok := response.ok
    status := response.status
    statusText := response.statusText
    message := message
    payloadText := raw
    payload := payload
    meta := extractQuotaMeta now dateParse response.headers }

/-- `extractCloudflareCredentials`: split on the first `:` when it is
neither the first nor the last character, else reuse the whole key for
both fields. Returns `(accountId, apiToken)`. -/
def extractCloudflareCredentials (apiKey : String) : String × String :=
  match apiKey.toList.findIdx? (· == ':') with
  | some i =>
    if 0 < i ∧ i < apiKey.length - 1 then
      (⟨apiKey.toList.take i⟩, ⟨apiKey.toList.drop (i + 1)⟩)
    else (apiKey, apiKey)
  | none => (apiKey, apiKey)

/-- One array element inside `normalizeMessageContent`: strings pass
through, objects with a string `text` member contribute it, everything
else is `JSON.stringify`-ed (`null` is falsy, so it too is stringified). -/
def normalizeContentItem (item : Json) : String :=
  match item with
  | .str s => s
  | .obj members =>
    match ((members.find? (fun kv => kv.1 = "text")).map (·.2) : Option Json) with
    | some (.str t) => t
    | _ => jsonStringify item
  | _ => jsonStringify item

/-- `normalizeMessageContent`. An array whose joined parts are blank falls
through to the `typeof === "object"` branch, where an array has no `text`
property and is stringified whole; an object with a non-blank string
`text` member yields it, else the object is stringified; primitives are
`String(·)`-converted. The `null` case is unreachable from the only
caller (`parseResponseContent` filters null/undefined first; JavaScript
would raise a `TypeError` on it). -/
def normalizeMessageContent (content : Json) : String :=
  match content with
  | .str s => s
  | .arr items =>
    let joined := String.join (items.map normalizeContentItem)
    if jsTrim joined ≠ "" then joined else jsonStringify content
  | .obj members =>
    match ((members.find? (fun kv => kv.1 = "text")).map (·.2) : Option Json) with
    | some (.str t) => if jsTrim t ≠ "" then t else jsonStringify content
    | _ => jsonStringify content
  | .null => "null"
  | .bool b => jsToString (.bool b)
  | .num n => toString n

/-- The optional chain `payload.choices?.[0]?.message?.content`. -/
def extractRawContent (payload : Json) : Option Json :=
  match payload.getField "choices" with
  | some (.arr items) =>
    match items.head? with
    | some first =>
      match first.getField "message" with
      | some msg => msg.getField "content"
      | none => none
    | none => none
  | _ => none

/-- `parseResponseContent`: read the first choice's message content;
`undefined`/`null` content is the empty-response failure; otherwise
normalize to a string and `JSON.parse` it, the parse failure being the
non-JSON-content failure (with the content truncated to 500 units). Both
failures are plain `Error`s in the source (`throw new Error(...)`). -/
def parseResponseContent (parse : String → Option Json) (payload : Json) :
    Except String Json :=
  match extractRawContent payload with
  | none => .error "Cloudflare Workers AI returned an empty response"
  | some .null => .error "Cloudflare Workers AI returned an empty response"
  | some rc =>
    match parse (normalizeMessageContent rc) with
    | some j => .ok j
    | none =>
      .error ("Cloudflare Workers AI returned non-JSON content: " ++
        (normalizeMessageContent rc).take 500)

/-- `buildRepairPrompt`: the original user prompt, the repair instructions,
the failure reason and the invalid payload (serialized unless already a
string), joined with newlines (the source builds a line array and
`join("\n")`s it; the explicit appends here are that join, line by
line). -/
def buildRepairPrompt (originalUserPrompt : String) (invalidPayload : Json)
    (reason : String) : String :=
  let serializedPayload :=
    match invalidPayload with
    | .str s => s
    | p => jsonStringify p
  originalUserPrompt ++ "\n" ++ "" ++ "\n" ++
    "REPARACION OBLIGATORIA:" ++ "\n" ++
    "Corrige el siguiente JSON para que cumpla exactamente el schema y limites de caracteres." ++ "\n" ++
    "No cambies el sentido del contenido, solo corrige formato/longitudes/campos faltantes." ++ "\n" ++
    "Responde UNICAMENTE con JSON valido, sin markdown ni texto extra." ++ "\n" ++
    "Motivo de validacion fallida: " ++ reason ++ "\n" ++
    "JSON a corregir: " ++ serializedPayload

/-- The ambient inputs of one adapter call: the platform oracles
(`JSON.parse`, `fetch`, `Date.now`, `Date.parse`), the external
`normalizeStructuredSchema` helper, and the configuration source
(`process.env.AI_PROVIDER_CONFIG` plus the helper module's cache). -/
structure Env where
  parse : String → Option Json
  net : String → String → RequestBody → NetResponse
  now : Int
  dateParse : String → Option Int
  normalize : Json → Json
  raw : Option String
  cache : ConfigHelper.CacheState

/-- The `response_format` object of the first attempt. -/
def responseFormatFor (schema : Json) : Json :=
  .obj [("type", .str "json_schema"),
        ("json_schema", .obj [("name", .str "devotional_response"),
                              ("strict", .bool true),
                              ("schema", schema)])]

/-- `execute`. Besides the outcome (`Except Thrown …`, where `Thrown`
distinguishes classified from plain throws) it returns the list of
upstream request bodies handed to `requestCloudflare`, in order, so that
claims about issued network calls are statable. -/
def execute (env : Env) (systemPrompt userPrompt : String) (schemaResponse : Json) :
    Except Thrown AIExecutionResult × List RequestBody :=
  match ConfigHelper.findAIProviderByService env.parse env.raw env.cache "cloudflare" with
  | .error m => (.error (.plain m), [])
  | .ok (providerCfg, _) =>
    match providerCfg with
    | none =>
      (.error (.provider (buildAIProviderError
        ⟨"CloudflareWorkersAI", none,
         "Missing apiKey in AI_PROVIDER_CONFIG for service 'cloudflare'"⟩)), [])
    | some cfg =>
      if cfg.apiKey = "" then
        (.error (.provider (buildAIProviderError
          ⟨"CloudflareWorkersAI", none,
           "Missing apiKey in AI_PROVIDER_CONFIG for service 'cloudflare'"⟩)), [])
      else
        let creds := extractCloudflareCredentials cfg.apiKey
        let accountId := creds.1
        let apiToken := creds.2
        if cfg.model = "" then
          (.error (.provider (buildAIProviderError
            ⟨"CloudflareWorkersAI", none,
             "Missing model in AI_PROVIDER_CONFIG for service 'cloudflare'"⟩)), [])
        else
          let normalizedSchema := env.normalize schemaResponse
          let body1 : RequestBody :=
            { model := cfg.model
              messages := [⟨"system", systemPrompt⟩, ⟨"user", userPrompt⟩]
              response_format := some (responseFormatFor normalizedSchema) }
          let firstAttempt :=
            requestCloudflare env.parse env.now env.dateParse env.net apiToken accountId body1
          if firstAttempt.ok then
            match parseResponseContent env.parse firstAttempt.payload with
            | .ok d =>
              (.ok { data := d, meta := { firstAttempt.meta with model := some cfg.model } },
               [body1])
            | .error m => (.error (.plain m), [body1])
          else
            let fallbackPrompt :=
              userPrompt ++ "\n\nResponde SOLO con JSON válido y sin texto adicional."
            let body2 : RequestBody :=
              { model := cfg.model
                messages := [⟨"system", systemPrompt⟩, ⟨"user", fallbackPrompt⟩]
                response_format := none }
            let secondAttempt :=
              requestCloudflare env.parse env.now env.dateParse env.net apiToken accountId body2
            if secondAttempt.ok then
              match parseResponseContent env.parse secondAttempt.payload with
              | .ok d =>
                (.ok { data := d, meta := { secondAttempt.meta with model := some cfg.model } },
                 [body1, body2])
              | .error m => (.error (.plain m), [body1, body2])
            else
              (.error (.provider (buildAIProviderError
                ⟨"CloudflareWorkersAI", some secondAttempt.status, secondAttempt.message⟩)),
               [body1, body2])

/-- `AIRepairInvalidResponseInput` (src/ai.interface.ts). -/
structure AIRepairInvalidResponseInput where
  systemPrompt : String
  userPrompt : String
  schemaResponse : Json
  invalidPayload : Json
  reason : AIProviderError

/-- `repairInvalidResponse`: delegates to `execute` with the repair prompt. -/
def repairInvalidResponse (env : Env) (input : AIRepairInvalidResponseInput) :
    Except Thrown AIExecutionResult × List RequestBody :=
  execute env input.systemPrompt
    (buildRepairPrompt input.userPrompt input.invalidPayload input.reason.rawMessage)
    input.schemaResponse

end CloudflareWorkersAI

/-! ## Spec-side validity predicate (transcribed from the spec wording) -/

namespace ConfigHelper

/-- The provider identity `validateEntry` reads off an entry:
`entry.provider ?? entry.serviceName`, when that is a string. -/
def providerIdentityOf (e : Json) : Option String :=
  match jsCoalesce (e.getField "provider") (e.getField "serviceName") with
  | some (.str s) => some s
  | _ => none

/-- The normalized (trimmed, lowercased) identity of a raw entry. -/
def normalizedIdOf (e : Json) : Option String :=
  (providerIdentityOf e).map (fun s => jsToLower (jsTrim s))

/-- The claim-side element condition for C5, following the spec/claim words:
the element is an object with a non-empty string provider identity (or
legacy `serviceName`), a string `apiKey`, a non-empty string `model`, and
`priority`, `dailyBudgetRequests`, `dailyBudgetTokens`, `maxConcurrency`
and `maxRequestsPerMinute` values each convertible to a finite number.
To be compared against `validateEntry` (the source-side definition). -/
def entrySpecOK (e : Json) : Bool :=
  (match e with
   | .obj _ => true
   | _ => false) &&
  (match providerIdentityOf e with
   | some s => !(jsTrim s == "")
   | none => false) &&
  (match e.getField "apiKey" with
   | some (.str _) => true
   | _ => false) &&
  (match e.getField "model" with
   | some (.str m) => !(jsTrim m == "")
   | _ => false) &&
  (jsToNumber (e.getField "priority")).isSome &&
  (jsToNumber (e.getField "dailyBudgetRequests")).isSome &&
  (jsToNumber (e.getField "dailyBudgetTokens")).isSome &&
  (jsToNumber (e.getField "maxConcurrency")).isSome &&
  (jsToNumber (e.getField "maxRequestsPerMinute")).isSome

end ConfigHelper

/-! ## Concrete sample data (used by witnesses and counterexamples) -/

/-- A well-formed raw entry whose identity normalizes to `"cloudflare"`. -/
def sampleEntry : Json :=
  .obj [("provider", .str " CloudFlare "), ("apiKey", .str "acct:tok"),
        ("model", .str " llama "), ("priority", .num 1),
        ("dailyBudgetRequests", .num 100), ("dailyBudgetTokens", .num 1000),
        ("maxConcurrency", .num 2), ("maxRequestsPerMinute", .num 10)]

/-- What `validateEntry` makes of `sampleEntry`. -/
def sampleParsed : ConfigHelper.AIProviderConfigEntry :=
  ⟨"cloudflare", "acct:tok", "llama", 1, 100, 1000, 2, 10, true⟩

/-- A second well-formed raw entry (legacy `serviceName` key, disabled). -/
def sampleEntry2 : Json :=
  .obj [("serviceName", .str "Groq"), ("apiKey", .str "k2"), ("model", .str "mg"),
        ("priority", .num 2), ("dailyBudgetRequests", .num 5),
        ("dailyBudgetTokens", .num 50), ("maxConcurrency", .num 1),
        ("maxRequestsPerMinute", .num 3), ("enabled", .bool false)]

/-- What `validateEntry` makes of `sampleEntry2`. -/
def sampleParsed2 : ConfigHelper.AIProviderConfigEntry :=
  ⟨"groq", "k2", "mg", 2, 5, 50, 1, 3, false⟩

/-- A cloudflare entry whose `apiKey` is the empty string. -/
def sampleEntryNoKey : Json :=
  .obj [("provider", .str "cloudflare"), ("apiKey", .str ""), ("model", .str "m"),
        ("priority", .num 1), ("dailyBudgetRequests", .num 1),
        ("dailyBudgetTokens", .num 1), ("maxConcurrency", .num 1),
        ("maxRequestsPerMinute", .num 1)]

/-- What `validateEntry` makes of `sampleEntryNoKey`. -/
def sampleParsedNoKey : ConfigHelper.AIProviderConfigEntry :=
  ⟨"cloudflare", "", "m", 1, 1, 1, 1, 1, true⟩

/-- The message content the sample upstream payload carries: `{"a":1}`. -/
def sampleContent : String := "\x7b\"a\":1\x7d"

/-- An upstream payload whose first choice carries `sampleContent`. -/
def samplePayloadOK : Json :=
  .obj [("choices", .arr [.obj [("message", .obj [("content", .str sampleContent)])]])]

/-- An upstream payload with no `choices` at all. -/
def samplePayloadEmpty : Json := .obj [("result", .str "ok")]

/-- A concrete `JSON.parse` oracle covering the strings the samples use
(configuration sources, response bodies, and the message content). Note
`sampleParse "" = none`, as for the real `JSON.parse`. -/
def sampleParse : String → Option Json := fun s =>
  if s = "CFG" then some (.arr [sampleEntry, sampleEntry2])
  else if s = "CFGDUP" then some (.arr [sampleEntry, sampleEntry])
  else if s = "CFGNOKEY" then some (.arr [sampleEntryNoKey])
  else if s = "BODY_OK" then some samplePayloadOK
  else if s = "BODY_EMPTY" then some samplePayloadEmpty
  else if s = sampleContent then some (.obj [("a", .num 1)])
  else none

/-- Sample rate-limit headers (mixed case on purpose: `Headers.get` is
case-insensitive). -/
def sampleHeaders : List (String × String) :=
  [("X-RateLimit-Remaining-Requests", "7"), ("x-ratelimit-remaining-tokens", "88"),
   ("x-ratelimit-reset", "60")]

/-- A network oracle that always succeeds with `samplePayloadOK`. -/
def netOK : String → String → CloudflareWorkersAI.RequestBody → CloudflareWorkersAI.NetResponse :=
  fun _ _ _ => ⟨true, 200, "OK", "BODY_OK", sampleHeaders⟩

/-- A network oracle that succeeds but returns a payload with no choices. -/
def netEmpty : String → String → CloudflareWorkersAI.RequestBody → CloudflareWorkersAI.NetResponse :=
  fun _ _ _ => ⟨true, 200, "OK", "BODY_EMPTY", []⟩

/-- A network oracle that always fails with HTTP 500. -/
def netFail : String → String → CloudflareWorkersAI.RequestBody → CloudflareWorkersAI.NetResponse :=
  fun _ _ _ => ⟨false, 500, "ERR", "oops", []⟩

/-- A network oracle that rejects the structured-output attempt (the one
with a `response_format`) and accepts the fallback attempt. -/
def netFirstFails : String → String → CloudflareWorkersAI.RequestBody → CloudflareWorkersAI.NetResponse :=
  fun _ _ b =>
    if b.response_format.isSome then ⟨false, 429, "Too Many Requests", "ratelimited", []⟩
    else ⟨true, 200, "OK", "BODY_OK", sampleHeaders⟩

/-- A repair input whose invalid payload is a JSON object. -/
def sampleRepairInput : CloudflareWorkersAI.AIRepairInvalidResponseInput :=
  ⟨"sys", "user", .null, .obj [("x", .num 1)],
   ⟨.invalidResponse, "prov", none, "msg", "rawmsg"⟩⟩

/-- A repair input whose invalid payload is already a string. -/
def sampleRepairInputStr : CloudflareWorkersAI.AIRepairInvalidResponseInput :=
  ⟨"sys", "user", .null, .str "rawpayload",
   ⟨.invalidResponse, "prov", none, "msg", "rawmsg"⟩⟩

/-- A fully concrete adapter environment. -/
def sampleEnv : CloudflareWorkersAI.Env :=
  { parse := sampleParse, net := netOK, now := 1000, dateParse := fun _ => none,
    normalize := id, raw := some "CFG", cache := ⟨none, none⟩ }

/-! ## Analysis of the configuration helper -/

namespace ConfigHelper

theorem toNumber_ok_iff {v : Option Json} {n : Int} :
    toNumber v = .ok n ↔ jsToNumber v = some n := by
  unfold toNumber
  cases h : jsToNumber v <;> simp

theorem providerIdentityOf_eq_some {e : Json} {s : String} :
    providerIdentityOf e = some s ↔
      jsCoalesce (e.getField "provider") (e.getField "serviceName") = some (.str s) := by
  unfold providerIdentityOf
  cases h : jsCoalesce (e.getField "provider") (e.getField "serviceName") with
  | none => simp
  | some v => cases v <;> simp

/-- Full characterization of a successful `validateEntry`. -/
theorem validateEntry_eq_ok_iff {e : Json} {p : AIProviderConfigEntry} :
    validateEntry e = .ok p ↔
      ∃ s k m,
        providerIdentityOf e = some s ∧ ¬jsTrim s = "" ∧
        e.getField "apiKey" = some (.str k) ∧
        e.getField "model" = some (.str m) ∧ ¬jsTrim m = "" ∧
        ∃ pr dbr dbt mc mrpm,
          jsToNumber (e.getField "priority") = some pr ∧
          jsToNumber (e.getField "dailyBudgetRequests") = some dbr ∧
          jsToNumber (e.getField "dailyBudgetTokens") = some dbt ∧
          jsToNumber (e.getField "maxConcurrency") = some mc ∧
          jsToNumber (e.getField "maxRequestsPerMinute") = some mrpm ∧
          p = ⟨jsToLower (jsTrim s), k, jsTrim m, pr, dbr, dbt, mc, mrpm,
               enabledFlag (e.getField "enabled")⟩ := by
  constructor
  · intro h
    unfold validateEntry at h
    cases e <;> try exact Except.noConfusion h
    all_goals (
      repeat (any_goals (first | exact Except.noConfusion h | split at h)))
    all_goals (
      cases h
      refine ⟨_, _, _, providerIdentityOf_eq_some.mpr (by assumption), by assumption,
        by assumption, by assumption, by assumption, _, _, _, _, _,
        toNumber_ok_iff.mp (by assumption), toNumber_ok_iff.mp (by assumption),
        toNumber_ok_iff.mp (by assumption), toNumber_ok_iff.mp (by assumption),
        toNumber_ok_iff.mp (by assumption), rfl⟩)
  · rintro ⟨s, k, m, hs, h1, hk, hm, h2, pr, dbr, dbt, mc, mrpm,
      hpr, hdbr, hdbt, hmc, hmrpm, rfl⟩
    have hs' := providerIdentityOf_eq_some.mp hs
    have hpr' := toNumber_ok_iff.mpr hpr
    have hdbr' := toNumber_ok_iff.mpr hdbr
    have hdbt' := toNumber_ok_iff.mpr hdbt
    have hmc' := toNumber_ok_iff.mpr hmc
    have hmrpm' := toNumber_ok_iff.mpr hmrpm
    cases e
    case null => simp [providerIdentityOf, Json.getField, jsCoalesce] at hs
    case bool b => simp [providerIdentityOf, Json.getField, jsCoalesce] at hs
    case num n => simp [providerIdentityOf, Json.getField, jsCoalesce] at hs
    case str st => simp [providerIdentityOf, Json.getField, jsCoalesce] at hs
    case arr items =>
      simp [validateEntry, hs', hk, hm, hpr', hdbr', hdbt', hmc', hmrpm', h1, h2]
    case obj members =>
      simp [validateEntry, hs', hk, hm, hpr', hdbr', hdbt', hmc', hmrpm', h1, h2]

theorem validateEntry_ok_normalizedId {e : Json} {p : AIProviderConfigEntry}
    (h : validateEntry e = .ok p) : normalizedIdOf e = some p.provider := by
  rcases validateEntry_eq_ok_iff.mp h with
    ⟨s, k, m, hs, h1, hk, hm, h2, pr, dbr, dbt, mc, mrpm, _, _, _, _, _, rfl⟩
  simp [normalizedIdOf, hs]

theorem validateAll_ok_iff {elems : List Json} :
    (∃ ps, validateAll elems = .ok ps) ↔ ∀ e ∈ elems, ∃ p, validateEntry e = .ok p := by
  induction elems with
  | nil => simp [validateAll]
  | cons e rest ih =>
    constructor
    · rintro ⟨ps, h⟩
      unfold validateAll at h
      cases hve : validateEntry e with
      | error m => rw [hve] at h; exact Except.noConfusion h
      | ok p =>
        rw [hve] at h
        cases hvr : validateAll rest with
        | error m => rw [hvr] at h; exact Except.noConfusion h
        | ok ps2 =>
          intro x hx
          rcases List.mem_cons.mp hx with rfl | hx2
          · exact ⟨p, hve⟩
          · exact (ih.mp ⟨ps2, hvr⟩) x hx2
    · intro hall
      rcases hall e (by simp) with ⟨p, hp⟩
      rcases ih.mpr (fun x hx => hall x (by simp [hx])) with ⟨ps, hps⟩
      exact ⟨p :: ps, by simp [validateAll, hp, hps]⟩

theorem validateAll_ok_length {elems : List Json} {ps : List AIProviderConfigEntry}
    (h : validateAll elems = .ok ps) : ps.length = elems.length := by
  induction elems generalizing ps with
  | nil =>
    unfold validateAll at h
    cases h
    rfl
  | cons e rest ih =>
    unfold validateAll at h
    cases hve : validateEntry e with
    | error m => rw [hve] at h; exact Except.noConfusion h
    | ok p =>
      rw [hve] at h
      cases hvr : validateAll rest with
      | error m => rw [hvr] at h; exact Except.noConfusion h
      | ok ps2 =>
        rw [hvr] at h
        cases h
        simp [ih hvr]

theorem validateAll_ok_get {elems : List Json} {ps : List AIProviderConfigEntry}
    (h : validateAll elems = .ok ps) :
    ∀ i (hi : i < elems.length) (hi2 : i < ps.length),
      validateEntry (elems.get ⟨i, hi⟩) = .ok (ps.get ⟨i, hi2⟩) := by
  induction elems generalizing ps with
  | nil => intro i hi; exact absurd hi (by simp)
  | cons e rest ih =>
    unfold validateAll at h
    cases hve : validateEntry e with
    | error m => rw [hve] at h; exact Except.noConfusion h
    | ok p =>
      rw [hve] at h
      cases hvr : validateAll rest with
      | error m => rw [hvr] at h; exact Except.noConfusion h
      | ok ps2 =>
        rw [hvr] at h
        cases h
        intro i hi hi2
        cases i with
        | zero => simpa using hve
        | succ n => exact ih hvr n (by simpa using hi) (by simpa using hi2)

theorem validateAll_ok_mem {elems : List Json} {ps : List AIProviderConfigEntry}
    (h : validateAll elems = .ok ps) :
    ∀ p ∈ ps, ∃ e ∈ elems, validateEntry e = .ok p := by
  induction elems generalizing ps with
  | nil =>
    unfold validateAll at h
    cases h
    simp
  | cons e rest ih =>
    unfold validateAll at h
    cases hve : validateEntry e with
    | error m => rw [hve] at h; exact Except.noConfusion h
    | ok p =>
      rw [hve] at h
      cases hvr : validateAll rest with
      | error m => rw [hvr] at h; exact Except.noConfusion h
      | ok ps2 =>
        rw [hvr] at h
        cases h
        intro q hq
        rcases List.mem_cons.mp hq with rfl | hq2
        · exact ⟨e, by simp, hve⟩
        · rcases ih hvr q hq2 with ⟨e2, he2, hv2⟩
          exact ⟨e2, by simp [he2], hv2⟩

theorem validateAll_ok_ids {elems : List Json} {ps : List AIProviderConfigEntry}
    (h : validateAll elems = .ok ps) :
    elems.map normalizedIdOf = ps.map (fun p => some p.provider) := by
  induction elems generalizing ps with
  | nil =>
    unfold validateAll at h
    cases h
    rfl
  | cons e rest ih =>
    unfold validateAll at h
    cases hve : validateEntry e with
    | error m => rw [hve] at h; exact Except.noConfusion h
    | ok p =>
      rw [hve] at h
      cases hvr : validateAll rest with
      | error m => rw [hvr] at h; exact Except.noConfusion h
      | ok ps2 =>
        rw [hvr] at h
        cases h
        simp [validateEntry_ok_normalizedId hve, ih hvr]

theorem findDuplicateProvider_none_iff :
    ∀ (ps : List AIProviderConfigEntry) (seen : List String),
      findDuplicateProvider ps seen = none ↔
        (ps.map (·.provider)).Nodup ∧ ∀ s ∈ seen, s ∉ ps.map (·.provider) := by
  intro ps
  induction ps with
  | nil => simp [findDuplicateProvider]
  | cons p rest ih =>
    intro seen
    unfold findDuplicateProvider
    by_cases hmem : p.provider ∈ seen
    · rw [if_pos hmem]
      constructor
      · intro h; exact Option.noConfusion h
      · rintro ⟨_, hseen⟩
        exact absurd (by simp : p.provider ∈ (p :: rest).map (·.provider))
          (hseen p.provider hmem)
    · rw [if_neg hmem, ih]
      constructor
      · rintro ⟨hnd, hseen⟩
        have hp : p.provider ∉ rest.map (·.provider) := hseen p.provider (by simp)
        refine ⟨List.nodup_cons.mpr ⟨hp, hnd⟩, ?_⟩
        intro s hsseen
        simp only [List.map_cons, List.mem_cons, not_or]
        exact ⟨fun he => hmem (he ▸ hsseen), hseen s (List.mem_cons_of_mem _ hsseen)⟩
      · rintro ⟨hnd, hseen⟩
        rw [List.map_cons, List.nodup_cons] at hnd
        refine ⟨hnd.2, ?_⟩
        intro s hs
        rcases List.mem_cons.mp hs with rfl | hs2
        · exact hnd.1
        · have := hseen s hs2
          simp only [List.map_cons, List.mem_cons, not_or] at this
          exact this.2

theorem readAIProviderConfig_empty_cache (parse : String → Option Json) (r : String) :
    readAIProviderConfig parse (some r) ⟨none, none⟩ =
      if r = "" then .error "Missing AI_PROVIDER_CONFIG environment variable"
      else parseAndCache parse r := by
  unfold readAIProviderConfig
  by_cases h : r = "" <;> simp [h]

end ConfigHelper

namespace ConfigHelper

theorem parseAndCache_ok_iff {parse : String → Option Json} {r : String}
    {l : List AIProviderConfigEntry} {st2 : CacheState} :
    parseAndCache parse r = .ok (l, st2) ↔
      ∃ elems, parse r = some (.arr elems) ∧ validateAll elems = .ok l ∧
        findDuplicateProvider l [] = none ∧ st2 = ⟨some r, some l⟩ := by
  constructor
  · intro h
    unfold parseAndCache at h
    split at h <;> try exact Except.noConfusion h
    rename_i elems hparse
    split at h <;> try exact Except.noConfusion h
    rename_i ps hval
    split at h <;> try exact Except.noConfusion h
    rename_i hdup
    cases h
    exact ⟨elems, hparse, hval, hdup, rfl⟩
  · rintro ⟨elems, hparse, hval, hdup, rfl⟩
    simp [parseAndCache, hparse, hval, hdup]

theorem readAIProviderConfig_ok_state {parse : String → Option Json} {raw : Option String}
    {st : CacheState} {l : List AIProviderConfigEntry} {st2 : CacheState}
    (h : readAIProviderConfig parse raw st = .ok (l, st2)) :
    st2.cacheRaw = raw ∧ st2.cacheParsed = some l ∧ ∃ r, raw = some r ∧ ¬r = "" := by
  cases raw with
  | none => simp [readAIProviderConfig] at h
  | some r =>
    simp only [readAIProviderConfig] at h
    by_cases hr : r = ""
    · rw [if_pos hr] at h; exact Except.noConfusion h
    · rw [if_neg hr] at h
      by_cases hc : st.cacheParsed.isSome ∧ st.cacheRaw = some r
      · rw [if_pos hc] at h
        cases h
        rcases hc with ⟨hs, hcr⟩
        cases hp : st.cacheParsed with
        | none => rw [hp] at hs; exact absurd hs (by simp)
        | some cached => exact ⟨hcr, by simp [hp], r, rfl, hr⟩
      · rw [if_neg hc] at h
        rcases parseAndCache_ok_iff.mp h with ⟨elems, _, _, _, rfl⟩
        exact ⟨rfl, rfl, r, rfl, hr⟩

theorem readAIProviderConfig_fresh_ok_iff {parse : String → Option Json} {r : String}
    {l : List AIProviderConfigEntry} {st2 : CacheState} :
    readAIProviderConfig parse (some r) ⟨none, none⟩ = .ok (l, st2) ↔
      ¬r = "" ∧ ∃ elems, parse r = some (.arr elems) ∧ validateAll elems = .ok l ∧
        findDuplicateProvider l [] = none ∧ st2 = ⟨some r, some l⟩ := by
  rw [readAIProviderConfig_empty_cache]
  by_cases hr : r = ""
  · simp [hr]
  · simp [hr, parseAndCache_ok_iff]

theorem providerIdentityOf_some_obj {e : Json} {s : String}
    (h : providerIdentityOf e = some s) : ∃ ms, e = .obj ms := by
  cases e <;> simp_all [providerIdentityOf, Json.getField, jsCoalesce]

theorem validateEntry_isOk_iff_spec {e : Json} :
    (∃ p, validateEntry e = .ok p) ↔ entrySpecOK e = true := by
  constructor
  · rintro ⟨p, hp⟩
    rcases validateEntry_eq_ok_iff.mp hp with
      ⟨s, k, m, hs, h1, hk, hm, h2, pr, dbr, dbt, mc, mrpm, hpr, hdbr, hdbt, hmc, hmrpm, rfl⟩
    rcases providerIdentityOf_some_obj hs with ⟨ms, rfl⟩
    simp [entrySpecOK, hs, h1, hk, hm, h2, hpr, hdbr, hdbt, hmc, hmrpm]
  · intro h
    unfold entrySpecOK at h
    simp only [Bool.and_eq_true] at h
    obtain ⟨⟨⟨⟨⟨⟨⟨⟨hobj, hid⟩, hkey⟩, hmod⟩, hpr⟩, hdbr⟩, hdbt⟩, hmc⟩, hmrpm⟩ := h
    cases hpi : providerIdentityOf e with
    | none => rw [hpi] at hid; simp at hid
    | some s =>
      rw [hpi] at hid
      cases hk : e.getField "apiKey" with
      | none => rw [hk] at hkey; simp at hkey
      | some kv =>
        rw [hk] at hkey
        cases hm : e.getField "model" with
        | none => rw [hm] at hmod; simp at hmod
        | some mv =>
          rw [hm] at hmod
          cases kv with
          | str k =>
            cases mv with
            | str m =>
              rcases Option.isSome_iff_exists.mp hpr with ⟨pr, hpr2⟩
              rcases Option.isSome_iff_exists.mp hdbr with ⟨dbr, hdbr2⟩
              rcases Option.isSome_iff_exists.mp hdbt with ⟨dbt, hdbt2⟩
              rcases Option.isSome_iff_exists.mp hmc with ⟨mc, hmc2⟩
              rcases Option.isSome_iff_exists.mp hmrpm with ⟨mrpm, hmrpm2⟩
              exact ⟨_, validateEntry_eq_ok_iff.mpr
                ⟨s, k, m, hpi, by simpa using hid, hk, hm, by simpa using hmod,
                 pr, dbr, dbt, mc, mrpm, hpr2, hdbr2, hdbt2, hmc2, hmrpm2, rfl⟩⟩
            | null => simp at hmod
            | bool b => simp at hmod
            | num n => simp at hmod
            | arr a => simp at hmod
            | obj o => simp at hmod
          | null => simp at hkey
          | bool b => simp at hkey
          | num n => simp at hkey
          | arr a => simp at hkey
          | obj o => simp at hkey

end ConfigHelper

/-! ## Claim theorems -/

/-- Claim C6: for every accepted configuration entry, the parsed `enabled` flag
is `true` when the `enabled` field is absent, and equals the given value
when the `enabled` field is a boolean. -/
theorem C6_enabled_defaults (e : Json) (p : ConfigHelper.AIProviderConfigEntry)
    (h : ConfigHelper.validateEntry e = .ok p) :
    (e.getField "enabled" = none → p.enabled = true) ∧
    (∀ b, e.getField "enabled" = some (.bool b) → p.enabled = b) := by
  rcases ConfigHelper.validateEntry_eq_ok_iff.mp h with
    ⟨s, k, m, hs, h1, hk, hm, h2, pr, dbr, dbt, mc, mrpm, _, _, _, _, _, rfl⟩
  refine ⟨fun he => ?_, fun b he => ?_⟩ <;> simp [ConfigHelper.enabledFlag, he]

/-- Witness for C6: `sampleEntry` has no `enabled` field and parses enabled;
`sampleEntry2` carries `enabled: false` and parses disabled. -/
theorem C6_enabled_defaults_witness :
    ConfigHelper.validateEntry sampleEntry = .ok sampleParsed ∧
    sampleEntry.getField "enabled" = none ∧ sampleParsed.enabled = true ∧
    ConfigHelper.validateEntry sampleEntry2 = .ok sampleParsed2 ∧
    sampleEntry2.getField "enabled" = some (.bool false) ∧ sampleParsed2.enabled = false :=
  ⟨rfl, rfl, (C6_enabled_defaults sampleEntry sampleParsed rfl).1 rfl, rfl, rfl,
   (C6_enabled_defaults sampleEntry2 sampleParsed2 rfl).2 false rfl⟩

/-- Claim C2: a configuration array with two entries whose provider identities
coincide after trimming and lowercasing is rejected by
`readAIProviderConfig`; every accepted list has pairwise-distinct
identities, each of the trimmed-and-lowercased form. -/
theorem C2_unique_normalized_identities (parse : String → Option Json) (r : String) :
    (∀ elems i j (hi : i < elems.length) (hj : j < elems.length) pi pj,
        parse r = some (.arr elems) → ¬i = j →
        ConfigHelper.validateEntry (elems.get ⟨i, hi⟩) = .ok pi →
        ConfigHelper.validateEntry (elems.get ⟨j, hj⟩) = .ok pj →
        pi.provider = pj.provider →
        ∃ m, ConfigHelper.readAIProviderConfig parse (some r) ⟨none, none⟩ = .error m) ∧
    (∀ l st2,
        ConfigHelper.readAIProviderConfig parse (some r) ⟨none, none⟩ = .ok (l, st2) →
        (l.map (·.provider)).Nodup ∧
        ∀ p ∈ l, ∃ s, p.provider = jsToLower (jsTrim s)) := by
  constructor
  · intro elems i j hi hj pi pj hparse hij hvi hvj hpp
    cases hread : ConfigHelper.readAIProviderConfig parse (some r) ⟨none, none⟩ with
    | error m => exact ⟨m, rfl⟩
    | ok res =>
      exfalso
      obtain ⟨l, st2⟩ := res
      rcases ConfigHelper.readAIProviderConfig_fresh_ok_iff.mp hread with
        ⟨hr, elems2, hp2, hval, hdup, rfl⟩
      rw [hparse] at hp2
      obtain rfl : elems = elems2 := by simpa using hp2
      have hlen := ConfigHelper.validateAll_ok_length hval
      have hil : i < l.length := by omega
      have hjl : j < l.length := by omega
      have hgi := ConfigHelper.validateAll_ok_get hval i hi hil
      have hgj := ConfigHelper.validateAll_ok_get hval j hj hjl
      rw [hvi] at hgi
      rw [hvj] at hgj
      have hpi2 : pi = l.get ⟨i, hil⟩ := by injection hgi
      have hpj2 : pj = l.get ⟨j, hjl⟩ := by injection hgj
      have hnd := ((ConfigHelper.findDuplicateProvider_none_iff l []).mp hdup).1
      have hpp2 : (l.get ⟨i, hil⟩).provider = (l.get ⟨j, hjl⟩).provider := by
        rw [← hpi2, ← hpj2]; exact hpp
      have hmap : (l.map (·.provider)).get ⟨i, by simpa using hil⟩ =
          (l.map (·.provider)).get ⟨j, by simpa using hjl⟩ := by
        simpa [List.getElem_map] using hpp2
      have h6 := (hnd.get_inj_iff).mp hmap
      exact hij (by simpa using congrArg Fin.val h6)
  · intro l st2 hread
    rcases ConfigHelper.readAIProviderConfig_fresh_ok_iff.mp hread with
      ⟨hr, elems, hp, hval, hdup, rfl⟩
    refine ⟨((ConfigHelper.findDuplicateProvider_none_iff l []).mp hdup).1, ?_⟩
    intro p hpmem
    rcases ConfigHelper.validateAll_ok_mem hval p hpmem with ⟨e, he, hve⟩
    rcases ConfigHelper.validateEntry_eq_ok_iff.mp hve with
      ⟨s, k, m, hs, h1, hk, hm, h2, pr, dbr, dbt, mc, mrpm, _, _, _, _, _, rfl⟩
    exact ⟨s, rfl⟩

/-- Witness for C2: the duplicated configuration `CFGDUP` is rejected; the
accepted configuration `CFG` yields distinct normalized identities. -/
theorem C2_unique_normalized_identities_witness :
    ConfigHelper.validateEntry sampleEntry = .ok sampleParsed ∧
    sampleParse "CFGDUP" = some (.arr [sampleEntry, sampleEntry]) ∧
    (∃ m, ConfigHelper.readAIProviderConfig sampleParse (some "CFGDUP") ⟨none, none⟩ =
       .error m) ∧
    ([sampleParsed, sampleParsed2].map (·.provider)).Nodup :=
  ⟨rfl, rfl,
   (C2_unique_normalized_identities sampleParse "CFGDUP").1 [sampleEntry, sampleEntry] 0 1
     (by decide) (by decide) sampleParsed sampleParsed rfl (by decide) rfl rfl rfl,
   ((C2_unique_normalized_identities sampleParse "CFG").2 [sampleParsed, sampleParsed2]
     ⟨some "CFG", some [sampleParsed, sampleParsed2]⟩ rfl).1⟩

/-- Claim C10: `findAIProviderByProvider` returns the first configured entry
whose identity equals the lowercased argument and whose `enabled` flag is
not `false`, and no entry when none matches; in particular it never
returns a disabled entry, and the lookup lowercases its argument. -/
theorem C10_find_first_enabled (parse : String → Option Json) (raw : Option String)
    (st : ConfigHelper.CacheState) (pv : String)
    (l : List ConfigHelper.AIProviderConfigEntry) (st2 : ConfigHelper.CacheState)
    (hread : ConfigHelper.readAIProviderConfig parse raw st = .ok (l, st2)) :
    (ConfigHelper.findAIProviderByProvider parse raw st pv = .ok (none, st2) ↔
       ∀ x ∈ l, ¬(x.provider = jsToLower pv ∧ ¬x.enabled = false)) ∧
    (∀ q, ConfigHelper.findAIProviderByProvider parse raw st pv = .ok (some q, st2) ↔
       (q.provider = jsToLower pv ∧ ¬q.enabled = false ∧
        ∃ l1 l2, l = l1 ++ q :: l2 ∧
          ∀ x ∈ l1, ¬(x.provider = jsToLower pv ∧ ¬x.enabled = false))) := by
  have hf : ConfigHelper.findAIProviderByProvider parse raw st pv =
      .ok (l.find? (fun p => p.provider == jsToLower pv && p.enabled != false), st2) := by
    unfold ConfigHelper.findAIProviderByProvider
    rw [hread]
    rfl
  rw [hf]
  constructor
  · rw [show ((Except.ok (l.find? (fun p => p.provider == jsToLower pv && p.enabled != false), st2) :
        Except String _) = .ok (none, st2)) ↔
        l.find? (fun p => p.provider == jsToLower pv && p.enabled != false) = none by simp]
    rw [List.find?_eq_none]
    constructor
    · intro h x hx hcontra
      have hb := h x hx
      simp only [Bool.and_eq_true, beq_iff_eq, bne_iff_ne, ne_eq, not_and, not_not] at hb
      exact hcontra.2 (hb hcontra.1)
    · intro h x hx
      have hp := h x hx
      simp only [Bool.and_eq_true, beq_iff_eq, bne_iff_ne, ne_eq, not_and, not_not]
      intro hxp
      by_contra henb
      exact hp ⟨hxp, henb⟩
  · intro q
    rw [show ((Except.ok (l.find? (fun p => p.provider == jsToLower pv && p.enabled != false), st2) :
        Except String _) = .ok (some q, st2)) ↔
        l.find? (fun p => p.provider == jsToLower pv && p.enabled != false) = some q by simp]
    rw [List.find?_eq_some]
    constructor
    · rintro ⟨hq, l1, l2, hsplit, hbefore⟩
      simp only [Bool.and_eq_true, beq_iff_eq, bne_iff_ne, ne_eq] at hq
      refine ⟨hq.1, hq.2, l1, l2, hsplit, ?_⟩
      intro x hx hcontra
      have hb := hbefore x hx
      cases he : x.enabled with
      | false => exact hcontra.2 he
      | true => exact absurd hb (by simp [hcontra.1, he])
    · rintro ⟨h1, h2, l1, l2, hsplit, hbefore⟩
      refine ⟨by simp [h1, h2], l1, l2, hsplit, ?_⟩
      intro x hx
      have hp := hbefore x hx
      have hfalse : (x.provider == jsToLower pv && x.enabled != false) = false := by
        by_cases hxp : x.provider = jsToLower pv
        · have he : x.enabled = false := by
            by_contra henb
            exact hp ⟨hxp, henb⟩
          simp [he]
        · simp [hxp]
      rw [hfalse]
      rfl

/-- Witness for C10 at the sample configuration: `"CLOUDFLARE"` finds the
cloudflare entry (case-insensitively) and `"groq"` finds nothing (the groq
entry is disabled). -/
theorem C10_find_first_enabled_witness :
    ConfigHelper.findAIProviderByProvider sampleParse (some "CFG") ⟨none, none⟩ "CLOUDFLARE" =
      .ok (some sampleParsed, ⟨some "CFG", some [sampleParsed, sampleParsed2]⟩) ∧
    sampleParsed.provider = jsToLower "CLOUDFLARE" ∧ ¬sampleParsed.enabled = false ∧
    ConfigHelper.findAIProviderByProvider sampleParse (some "CFG") ⟨none, none⟩ "groq" =
      .ok (none, ⟨some "CFG", some [sampleParsed, sampleParsed2]⟩) ∧
    ∀ x ∈ [sampleParsed, sampleParsed2], ¬(x.provider = jsToLower "groq" ∧ ¬x.enabled = false) :=
  ⟨rfl,
   (((C10_find_first_enabled sampleParse (some "CFG") ⟨none, none⟩ "CLOUDFLARE"
       [sampleParsed, sampleParsed2] ⟨some "CFG", some [sampleParsed, sampleParsed2]⟩
       rfl).2 sampleParsed).mp rfl).1,
   (((C10_find_first_enabled sampleParse (some "CFG") ⟨none, none⟩ "CLOUDFLARE"
       [sampleParsed, sampleParsed2] ⟨some "CFG", some [sampleParsed, sampleParsed2]⟩
       rfl).2 sampleParsed).mp rfl).2.1,
   rfl,
   (C10_find_first_enabled sampleParse (some "CFG") ⟨none, none⟩ "groq"
       [sampleParsed, sampleParsed2] ⟨some "CFG", some [sampleParsed, sampleParsed2]⟩
       rfl).1.mp rfl⟩

/-- Claim C8: a successful read leaves the cache holding exactly the returned
list; a second call with the same raw value returns that identical list
and state under *any* parse oracle (so nothing is reparsed); and a
successful call with a different raw value replaces the cache wholesale
with the newly parsed list (a swap, never a partial update). -/
theorem C8_cache_swap (parse parse2 parse3 : String → Option Json) (raw : Option String)
    (st st2 : ConfigHelper.CacheState) (l : List ConfigHelper.AIProviderConfigEntry)
    (h : ConfigHelper.readAIProviderConfig parse raw st = .ok (l, st2)) :
    st2.cacheRaw = raw ∧ st2.cacheParsed = some l ∧
    ConfigHelper.readAIProviderConfig parse2 raw st2 = .ok (l, st2) ∧
    (∀ r2 l3 st3, ¬raw = some r2 →
       ConfigHelper.readAIProviderConfig parse3 (some r2) st2 = .ok (l3, st3) →
       st3 = ⟨some r2, some l3⟩) := by
  obtain ⟨hcr, hcp, r, rfl, hr⟩ := ConfigHelper.readAIProviderConfig_ok_state h
  refine ⟨hcr, hcp, ?_, ?_⟩
  · simp only [ConfigHelper.readAIProviderConfig]
    rw [if_neg hr, if_pos ⟨by simp [hcp], hcr⟩]
    simp [hcp]
  · intro r2 l3 st3 hne hread3
    simp only [ConfigHelper.readAIProviderConfig] at hread3
    by_cases hr2 : r2 = ""
    · rw [if_pos hr2] at hread3; exact Except.noConfusion hread3
    · rw [if_neg hr2] at hread3
      have hmiss : ¬(st2.cacheParsed.isSome = true ∧ st2.cacheRaw = some r2) := by
        rintro ⟨_, hcr2⟩
        exact hne (by rw [← hcr, hcr2])
      rw [if_neg hmiss] at hread3
      rcases ConfigHelper.parseAndCache_ok_iff.mp hread3 with ⟨elems, _, _, _, rfl⟩
      rfl

/-- Witness for C8: reading `CFG` fills the cache; rereading it with a dead
parse oracle still returns the cached list; reading `CFGNOKEY` afterwards
swaps the cache wholesale. -/
theorem C8_cache_swap_witness :
    ConfigHelper.readAIProviderConfig sampleParse (some "CFG") ⟨none, none⟩ =
      .ok ([sampleParsed, sampleParsed2],
           ⟨some "CFG", some [sampleParsed, sampleParsed2]⟩) ∧
    ConfigHelper.readAIProviderConfig (fun _ => none) (some "CFG")
        ⟨some "CFG", some [sampleParsed, sampleParsed2]⟩ =
      .ok ([sampleParsed, sampleParsed2],
           ⟨some "CFG", some [sampleParsed, sampleParsed2]⟩) ∧
    (⟨some "CFGNOKEY", some [sampleParsedNoKey]⟩ : ConfigHelper.CacheState) =
      ⟨some "CFGNOKEY", some [sampleParsedNoKey]⟩ :=
  ⟨rfl,
   (C8_cache_swap sampleParse (fun _ => none) sampleParse (some "CFG") ⟨none, none⟩
      ⟨some "CFG", some [sampleParsed, sampleParsed2]⟩
      [sampleParsed, sampleParsed2] rfl).2.2.1,
   (C8_cache_swap sampleParse (fun _ => none) sampleParse (some "CFG") ⟨none, none⟩
      ⟨some "CFG", some [sampleParsed, sampleParsed2]⟩
      [sampleParsed, sampleParsed2] rfl).2.2.2 "CFGNOKEY" [sampleParsedNoKey]
      ⟨some "CFGNOKEY", some [sampleParsedNoKey]⟩ (by simp) rfl⟩

/-- Claim C5 (amended): `readAIProviderConfig` (first read, empty cache)
returns a provider list iff the environment value is a present non-empty
string that parses as a JSON array, every element satisfies the claimed
element conditions, **and** the normalized provider identities of the
elements are pairwise distinct; in every other case it throws. The
distinctness conjunct is the amendment: the claim as frozen omits it, but
a duplicated identity also makes the function throw. -/
theorem C5_read_config_characterization (parse : String → Option Json) (raw : Option String)
    (hpe : parse "" = none) :
    (∃ res, ConfigHelper.readAIProviderConfig parse raw ⟨none, none⟩ = .ok res) ↔
      ∃ r elems, raw = some r ∧ parse r = some (.arr elems) ∧
        (∀ e ∈ elems, ConfigHelper.entrySpecOK e = true) ∧
        (elems.map ConfigHelper.normalizedIdOf).Nodup := by
  constructor
  · rintro ⟨⟨l, st2⟩, hread⟩
    obtain ⟨hcr, hcp, r, rfl, hr⟩ := ConfigHelper.readAIProviderConfig_ok_state hread
    rcases ConfigHelper.readAIProviderConfig_fresh_ok_iff.mp hread with
      ⟨_, elems, hp, hval, hdup, rfl⟩
    refine ⟨r, elems, rfl, hp, ?_, ?_⟩
    · intro e he
      exact ConfigHelper.validateEntry_isOk_iff_spec.mp
        ((ConfigHelper.validateAll_ok_iff.mp ⟨l, hval⟩) e he)
    · rw [ConfigHelper.validateAll_ok_ids hval]
      have hnd := ((ConfigHelper.findDuplicateProvider_none_iff l []).mp hdup).1
      have hmm : l.map (fun p => some p.provider) = (l.map (·.provider)).map some := by
        simp [List.map_map]
      rw [hmm]
      exact hnd.map (Option.some_injective _)
  · rintro ⟨r, elems, rfl, hp, hall, hnd⟩
    have hr : ¬r = "" := by
      rintro rfl
      rw [hpe] at hp
      exact Option.noConfusion hp
    rcases ConfigHelper.validateAll_ok_iff.mpr (fun e he =>
      ConfigHelper.validateEntry_isOk_iff_spec.mpr (hall e he)) with ⟨ps, hps⟩
    have hnd2 : (ps.map (·.provider)).Nodup := by
      rw [ConfigHelper.validateAll_ok_ids hps] at hnd
      have hmm : ps.map (fun p => some p.provider) = (ps.map (·.provider)).map some := by
        simp [List.map_map]
      rw [hmm] at hnd
      exact (List.nodup_map_iff (Option.some_injective _)).mp hnd
    have hdup : ConfigHelper.findDuplicateProvider ps [] = none :=
      (ConfigHelper.findDuplicateProvider_none_iff ps []).mpr ⟨hnd2, by simp⟩
    exact ⟨(ps, ⟨some r, some ps⟩), ConfigHelper.readAIProviderConfig_fresh_ok_iff.mpr
      ⟨hr, elems, hp, hps, hdup, rfl⟩⟩

/-- Witness for the amended C5: the sample configuration satisfies the
right-hand conditions, and the read indeed returns a list. -/
theorem C5_read_config_characterization_witness :
    sampleParse "" = none ∧
    sampleParse "CFG" = some (.arr [sampleEntry, sampleEntry2]) ∧
    (∀ e ∈ [sampleEntry, sampleEntry2], ConfigHelper.entrySpecOK e = true) ∧
    (∃ res, ConfigHelper.readAIProviderConfig sampleParse (some "CFG") ⟨none, none⟩ =
       .ok res) :=
  ⟨rfl, rfl, by decide,
   (C5_read_config_characterization sampleParse (some "CFG") rfl).mpr
     ⟨"CFG", [sampleEntry, sampleEntry2], rfl, rfl, by decide, by decide⟩⟩

/-- Claim C5 counterexample: at the duplicated configuration `CFGDUP` the
value is present, parses as a JSON array, and every element meets the
claimed element conditions, yet `readAIProviderConfig` throws — so the
claimed "if and only if" fails in the only-if-missing direction. -/
theorem C5_counterexample :
    sampleParse "CFGDUP" = some (.arr [sampleEntry, sampleEntry]) ∧
    (∀ e ∈ [sampleEntry, sampleEntry], ConfigHelper.entrySpecOK e = true) ∧
    ¬∃ res, ConfigHelper.readAIProviderConfig sampleParse (some "CFGDUP") ⟨none, none⟩ =
        .ok res := by
  refine ⟨rfl, by decide, ?_⟩
  · rintro ⟨res, h⟩
    rw [show ConfigHelper.readAIProviderConfig sampleParse (some "CFGDUP") ⟨none, none⟩ =
        .error "Duplicated provider in AI_PROVIDER_CONFIG: cloudflare" from rfl] at h
    exact Except.noConfusion h

/-- Claim C3: when the configured cloudflare entry has an empty/missing
`apiKey` or an empty/missing `model`, `execute` throws a classified
configuration error and issues no upstream request (the request log is
empty, so `requestCloudflare` is never reached). -/
theorem C3_config_error_before_request (env : CloudflareWorkersAI.Env) (sp up : String)
    (schema : Json) (cfg : ConfigHelper.AIProviderConfigEntry)
    (st2 : ConfigHelper.CacheState)
    (hlookup : ConfigHelper.findAIProviderByService env.parse env.raw env.cache "cloudflare" =
      .ok (some cfg, st2))
    (hbad : cfg.apiKey = "" ∨ cfg.model = "") :
    ∃ msg, CloudflareWorkersAI.execute env sp up schema =
        (.error (.provider (buildAIProviderError ⟨"CloudflareWorkersAI", none, msg⟩)), []) ∧
      (buildAIProviderError ⟨"CloudflareWorkersAI", none, msg⟩).code = .configError := by
  by_cases hk : cfg.apiKey = ""
  · exact ⟨"Missing apiKey in AI_PROVIDER_CONFIG for service 'cloudflare'",
      by simp [CloudflareWorkersAI.execute, hlookup, hk], by decide⟩
  · have hm : cfg.model = "" := by tauto
    exact ⟨"Missing model in AI_PROVIDER_CONFIG for service 'cloudflare'",
      by simp [CloudflareWorkersAI.execute, hlookup, hk, hm], by decide⟩

/-- Witness for C3: a configuration whose cloudflare entry has an empty
`apiKey` makes `execute` fail with a classified `CONFIG_ERROR` and an
empty request log. -/
theorem C3_config_error_before_request_witness :
    ConfigHelper.findAIProviderByService sampleParse (some "CFGNOKEY") ⟨none, none⟩
        "cloudflare" =
      .ok (some sampleParsedNoKey, ⟨some "CFGNOKEY", some [sampleParsedNoKey]⟩) ∧
    sampleParsedNoKey.apiKey = "" ∧
    ∃ msg, CloudflareWorkersAI.execute { sampleEnv with raw := some "CFGNOKEY" } "s" "u"
          .null =
        (.error (.provider (buildAIProviderError ⟨"CloudflareWorkersAI", none, msg⟩)), []) ∧
      (buildAIProviderError ⟨"CloudflareWorkersAI", none, msg⟩).code = .configError :=
  ⟨rfl, rfl,
   C3_config_error_before_request { sampleEnv with raw := some "CFGNOKEY" } "s" "u" .null
     sampleParsedNoKey ⟨some "CFGNOKEY", some [sampleParsedNoKey]⟩ rfl (.inl rfl)⟩

/-- The repair prompt split into the original user prompt, a fixed middle,
the raw failure reason, a fixed label, and the serialized payload. -/
theorem buildRepairPrompt_decomposition (u : String) (p : Json) (r : String) :
    CloudflareWorkersAI.buildRepairPrompt u p r =
      u ++ ("\n" ++ "" ++ "\n" ++ "REPARACION OBLIGATORIA:" ++ "\n" ++
        "Corrige el siguiente JSON para que cumpla exactamente el schema y limites de caracteres." ++
        "\n" ++
        "No cambies el sentido del contenido, solo corrige formato/longitudes/campos faltantes." ++
        "\n" ++
        "Responde UNICAMENTE con JSON valido, sin markdown ni texto extra." ++ "\n" ++
        "Motivo de validacion fallida: ") ++ r ++ ("\n" ++ "JSON a corregir: ") ++
      (match p with
       | .str s => s
       | q => jsonStringify q) := by
  unfold CloudflareWorkersAI.buildRepairPrompt
  simp [String.append_assoc]

/-- Claim C4: `repairInvalidResponse` invokes `execute` with the original
system prompt and schema unchanged, and a user prompt that contains the
original user prompt (as its head), the failure reason's raw message, and
the invalid payload — serialized to a string when it is not already one. -/
theorem C4_repair_arguments (env : CloudflareWorkersAI.Env)
    (input : CloudflareWorkersAI.AIRepairInvalidResponseInput) :
    CloudflareWorkersAI.repairInvalidResponse env input =
      CloudflareWorkersAI.execute env input.systemPrompt
        (CloudflareWorkersAI.buildRepairPrompt input.userPrompt input.invalidPayload
          input.reason.rawMessage) input.schemaResponse ∧
    (∃ post, CloudflareWorkersAI.buildRepairPrompt input.userPrompt input.invalidPayload
        input.reason.rawMessage = input.userPrompt ++ post) ∧
    (∃ pre post, CloudflareWorkersAI.buildRepairPrompt input.userPrompt input.invalidPayload
        input.reason.rawMessage = pre ++ input.reason.rawMessage ++ post) ∧
    (∀ s, input.invalidPayload = .str s →
       ∃ pre, CloudflareWorkersAI.buildRepairPrompt input.userPrompt input.invalidPayload
           input.reason.rawMessage = pre ++ s) ∧
    ((∀ s, ¬input.invalidPayload = .str s) →
       ∃ pre, CloudflareWorkersAI.buildRepairPrompt input.userPrompt input.invalidPayload
           input.reason.rawMessage = pre ++ jsonStringify input.invalidPayload) := by
  refine ⟨rfl, ?_, ?_, ?_, ?_⟩
  · exact ⟨_, by rw [buildRepairPrompt_decomposition]; simp only [String.append_assoc]; rfl⟩
  · exact ⟨_, _, by rw [buildRepairPrompt_decomposition]; exact String.append_assoc _ _ _⟩
  · intro s hs
    rw [hs]
    exact ⟨_, buildRepairPrompt_decomposition input.userPrompt (.str s)
      input.reason.rawMessage⟩
  · intro hnot
    cases hp : input.invalidPayload with
    | str s => exact absurd hp (hnot s)
    | null => exact ⟨_, buildRepairPrompt_decomposition _ _ _⟩
    | bool b => exact ⟨_, buildRepairPrompt_decomposition _ _ _⟩
    | num n => exact ⟨_, buildRepairPrompt_decomposition _ _ _⟩
    | arr a => exact ⟨_, buildRepairPrompt_decomposition _ _ _⟩
    | obj o => exact ⟨_, buildRepairPrompt_decomposition _ _ _⟩

/-- Witness for C4 at concrete repair inputs: an object payload appears
serialized, a string payload appears verbatim, and the prompt starts with
the original user prompt. -/
theorem C4_repair_arguments_witness :
    (∃ post, CloudflareWorkersAI.buildRepairPrompt sampleRepairInput.userPrompt
        sampleRepairInput.invalidPayload sampleRepairInput.reason.rawMessage =
        sampleRepairInput.userPrompt ++ post) ∧
    (∃ pre, CloudflareWorkersAI.buildRepairPrompt sampleRepairInput.userPrompt
        sampleRepairInput.invalidPayload sampleRepairInput.reason.rawMessage =
        pre ++ jsonStringify sampleRepairInput.invalidPayload) ∧
    (∃ pre, CloudflareWorkersAI.buildRepairPrompt sampleRepairInputStr.userPrompt
        sampleRepairInputStr.invalidPayload sampleRepairInputStr.reason.rawMessage =
        pre ++ "rawpayload") :=
  ⟨(C4_repair_arguments sampleEnv sampleRepairInput).2.1,
   (C4_repair_arguments sampleEnv sampleRepairInput).2.2.2.2
     (fun _ h => Json.noConfusion h),
   (C4_repair_arguments sampleEnv sampleRepairInputStr).2.2.2.1 "rawpayload" rfl⟩

/-- Claim C7: the successful-call meta. `remainingRequests` / `remainingTokens`
equal the finite numeric value of the corresponding `x-ratelimit` header
(primary name, generic name as `??`-fallback) when that header is present
and numeric — a non-empty string with a finite `Number(·)` value — and are
absent otherwise; `resetAtUnixMs` is the header value itself when it is a
(non-empty) finite number above 10 000 000 000, now plus the value in
seconds when it is a smaller finite number, the parsed date when it is an
unparseable-as-number but parseable date string, and absent when the
header is absent, empty, or parses neither way. -/
theorem C7_quota_meta (now : Int) (dateParse : String → Option Int)
    (headers : List (String × String)) (remHdr tokHdr resetHdr : Option String)
    (hrem : remHdr = CloudflareWorkersAI.strCoalesce
        (CloudflareWorkersAI.headersGet headers "x-ratelimit-remaining-requests")
        (CloudflareWorkersAI.headersGet headers "x-ratelimit-remaining"))
    (htok : tokHdr = CloudflareWorkersAI.headersGet headers "x-ratelimit-remaining-tokens")
    (hreset : resetHdr = CloudflareWorkersAI.strCoalesce
        (CloudflareWorkersAI.headersGet headers "x-ratelimit-reset-requests")
        (CloudflareWorkersAI.headersGet headers "x-ratelimit-reset")) :
    ((∀ s n, remHdr = some s → ¬s = "" → jsStringToNumber s = some n →
        (CloudflareWorkersAI.extractQuotaMeta now dateParse headers).remainingRequests =
          some n) ∧
     (remHdr = none →
        (CloudflareWorkersAI.extractQuotaMeta now dateParse headers).remainingRequests =
          none) ∧
     (∀ s, remHdr = some s → (s = "" ∨ jsStringToNumber s = none) →
        (CloudflareWorkersAI.extractQuotaMeta now dateParse headers).remainingRequests =
          none)) ∧
    ((∀ s n, tokHdr = some s → ¬s = "" → jsStringToNumber s = some n →
        (CloudflareWorkersAI.extractQuotaMeta now dateParse headers).remainingTokens =
          some n) ∧
     (tokHdr = none →
        (CloudflareWorkersAI.extractQuotaMeta now dateParse headers).remainingTokens =
          none) ∧
     (∀ s, tokHdr = some s → (s = "" ∨ jsStringToNumber s = none) →
        (CloudflareWorkersAI.extractQuotaMeta now dateParse headers).remainingTokens =
          none)) ∧
    ((∀ s n, resetHdr = some s → ¬s = "" → jsStringToNumber s = some n →
        n > 10000000000 →
        (CloudflareWorkersAI.extractQuotaMeta now dateParse headers).resetAtUnixMs =
          some n) ∧
     (∀ s n, resetHdr = some s → ¬s = "" → jsStringToNumber s = some n →
        ¬n > 10000000000 →
        (CloudflareWorkersAI.extractQuotaMeta now dateParse headers).resetAtUnixMs =
          some (now + n * 1000)) ∧
     (∀ s d, resetHdr = some s → ¬s = "" → jsStringToNumber s = none →
        dateParse s = some d →
        (CloudflareWorkersAI.extractQuotaMeta now dateParse headers).resetAtUnixMs =
          some d) ∧
     (resetHdr = none →
        (CloudflareWorkersAI.extractQuotaMeta now dateParse headers).resetAtUnixMs =
          none) ∧
     (∀ s, resetHdr = some s →
        (s = "" ∨ (jsStringToNumber s = none ∧ dateParse s = none)) →
        (CloudflareWorkersAI.extractQuotaMeta now dateParse headers).resetAtUnixMs =
          none)) := by
  have hmeta1 : (CloudflareWorkersAI.extractQuotaMeta now dateParse headers).remainingRequests =
      CloudflareWorkersAI.toNumber remHdr := by
    rw [hrem]; rfl
  have hmeta2 : (CloudflareWorkersAI.extractQuotaMeta now dateParse headers).remainingTokens =
      CloudflareWorkersAI.toNumber tokHdr := by
    rw [htok]; rfl
  have hmeta3 : (CloudflareWorkersAI.extractQuotaMeta now dateParse headers).resetAtUnixMs =
      CloudflareWorkersAI.parseResetHeader now dateParse resetHdr := by
    rw [hreset]; rfl
  refine ⟨⟨?_, ?_, ?_⟩, ⟨?_, ?_, ?_⟩, ⟨?_, ?_, ?_, ?_, ?_⟩⟩
  · intro s n h1 h2 h3
    rw [hmeta1, h1]
    simp [CloudflareWorkersAI.toNumber, h2, h3]
  · intro h1
    rw [hmeta1, h1]
    rfl
  · intro s h1 h2
    rw [hmeta1, h1]
    rcases h2 with rfl | h2
    · simp [CloudflareWorkersAI.toNumber]
    · simp [CloudflareWorkersAI.toNumber, h2]
  · intro s n h1 h2 h3
    rw [hmeta2, h1]
    simp [CloudflareWorkersAI.toNumber, h2, h3]
  · intro h1
    rw [hmeta2, h1]
    rfl
  · intro s h1 h2
    rw [hmeta2, h1]
    rcases h2 with rfl | h2
    · simp [CloudflareWorkersAI.toNumber]
    · simp [CloudflareWorkersAI.toNumber, h2]
  · intro s n h1 h2 h3 h4
    rw [hmeta3, h1]
    simp [CloudflareWorkersAI.parseResetHeader, h2, h3, h4]
  · intro s n h1 h2 h3 h4
    rw [hmeta3, h1]
    simp [CloudflareWorkersAI.parseResetHeader, h2, h3, h4]
  · intro s d h1 h2 h3 h4
    rw [hmeta3, h1]
    simp [CloudflareWorkersAI.parseResetHeader, h2, h3, h4]
  · intro h1
    rw [hmeta3, h1]
    rfl
  · intro s h1 h2
    rw [hmeta3, h1]
    rcases h2 with rfl | ⟨h2, h3⟩
    · simp [CloudflareWorkersAI.parseResetHeader]
    · simp [CloudflareWorkersAI.parseResetHeader, h2, h3]

/-- Witness for C7 at `sampleHeaders`: requests 7 (case-insensitive primary
header), tokens 88, reset 60 seconds from `now = 1000`, i.e. 61000. -/
theorem C7_quota_meta_witness :
    (CloudflareWorkersAI.extractQuotaMeta 1000 (fun _ => none) sampleHeaders).remainingRequests =
      some 7 ∧
    (CloudflareWorkersAI.extractQuotaMeta 1000 (fun _ => none) sampleHeaders).remainingTokens =
      some 88 ∧
    (CloudflareWorkersAI.extractQuotaMeta 1000 (fun _ => none) sampleHeaders).resetAtUnixMs =
      some 61000 :=
  ⟨(C7_quota_meta 1000 (fun _ => none) sampleHeaders _ _ _ rfl rfl rfl).1.1 "7" 7 rfl
     (by decide) rfl,
   (C7_quota_meta 1000 (fun _ => none) sampleHeaders _ _ _ rfl rfl rfl).2.1.1 "88" 88 rfl
     (by decide) rfl,
   (C7_quota_meta 1000 (fun _ => none) sampleHeaders _ _ _ rfl rfl rfl).2.2.2.1 "60" 60 rfl
     (by decide) rfl (by decide)⟩

theorem findAIProviderByService_error_iff {parse : String → Option Json}
    {raw : Option String} {st : ConfigHelper.CacheState} {pv m : String} :
    ConfigHelper.findAIProviderByService parse raw st pv = .error m ↔
      ConfigHelper.readAIProviderConfig parse raw st = .error m := by
  unfold ConfigHelper.findAIProviderByService ConfigHelper.findAIProviderByProvider
  cases h : ConfigHelper.readAIProviderConfig parse raw st <;> simp [Except.map]

theorem parseResponseContent_error_shape {parse : String → Option Json} {payload : Json}
    {m : String}
    (h : CloudflareWorkersAI.parseResponseContent parse payload = .error m) :
    m = "Cloudflare Workers AI returned an empty response" ∨
    ∃ c, m = "Cloudflare Workers AI returned non-JSON content: " ++ c := by
  unfold CloudflareWorkersAI.parseResponseContent at h
  split at h
  · exact .inl (Except.error.inj h).symm
  · exact .inl (Except.error.inj h).symm
  · split at h
    · exact Except.noConfusion h
    · exact .inr ⟨_, (Except.error.inj h).symm⟩

/-- Claim C1 (amended): a failing `execute` throws either a classified
`AIProviderError` (built by `buildAIProviderError`: the missing-config
paths and the upstream-HTTP-failure path) or a plain unclassified `Error`
(a configuration-loading failure propagated from `readAIProviderConfig`,
or — the paths the claim names — the empty-response-content and
non-JSON-content failures of `parseResponseContent`). The amendment: the
claim as frozen says *every* failure is classified, but the two content
paths (and the configuration-loading path) throw plain `Error`s. -/
theorem C1_throw_classification (env : CloudflareWorkersAI.Env) (sp up : String)
    (schema : Json) (t : Thrown) (log : List CloudflareWorkersAI.RequestBody)
    (h : CloudflareWorkersAI.execute env sp up schema = (.error t, log)) :
    (∃ e, t = .provider e) ∨
    (∃ m, t = .plain m ∧
      (ConfigHelper.readAIProviderConfig env.parse env.raw env.cache = .error m ∨
       m = "Cloudflare Workers AI returned an empty response" ∨
       ∃ c, m = "Cloudflare Workers AI returned non-JSON content: " ++ c)) := by
  simp only [CloudflareWorkersAI.execute] at h
  split at h
  · rename_i m2 hfind
    simp only [Prod.mk.injEq] at h
    obtain ⟨ht, -⟩ := h
    obtain rfl : t = .plain m2 := (Except.error.inj ht).symm
    exact .inr ⟨m2, rfl, .inl (findAIProviderByService_error_iff.mp hfind)⟩
  · rename_i res hfind
    split at h
    · simp only [Prod.mk.injEq] at h
      obtain ⟨ht, -⟩ := h
      exact .inl ⟨_, (Except.error.inj ht).symm⟩
    · rename_i cfg
      split at h
      · simp only [Prod.mk.injEq] at h
        obtain ⟨ht, -⟩ := h
        exact .inl ⟨_, (Except.error.inj ht).symm⟩
      · split at h
        · simp only [Prod.mk.injEq] at h
          obtain ⟨ht, -⟩ := h
          exact .inl ⟨_, (Except.error.inj ht).symm⟩
        · split at h
          · -- first attempt ok
            split at h
            · simp only [Prod.mk.injEq] at h
              obtain ⟨ht, -⟩ := h
              exact Except.noConfusion ht
            · rename_i m2 hparse
              simp only [Prod.mk.injEq] at h
              obtain ⟨ht, -⟩ := h
              obtain rfl : t = .plain m2 := (Except.error.inj ht).symm
              exact .inr ⟨m2, rfl, .inr (parseResponseContent_error_shape hparse)⟩
          · -- first attempt failed
            split at h
            · -- second attempt ok
              split at h
              · simp only [Prod.mk.injEq] at h
                obtain ⟨ht, -⟩ := h
                exact Except.noConfusion ht
              · rename_i m2 hparse
                simp only [Prod.mk.injEq] at h
                obtain ⟨ht, -⟩ := h
                obtain rfl : t = .plain m2 := (Except.error.inj ht).symm
                exact .inr ⟨m2, rfl, .inr (parseResponseContent_error_shape hparse)⟩
            · simp only [Prod.mk.injEq] at h
              obtain ⟨ht, -⟩ := h
              exact .inl ⟨_, (Except.error.inj ht).symm⟩

/-- Witness for the amended C1: with both upstream attempts failing, the
thrown value is classified. -/
theorem C1_throw_classification_witness :
    CloudflareWorkersAI.execute { sampleEnv with net := netFail } "s" "u" .null =
      (.error (.provider ⟨.providerError, "CloudflareWorkersAI", some 500,
         "Cloudflare Workers AI request failed with status 500",
         "Cloudflare Workers AI request failed with status 500"⟩),
       (CloudflareWorkersAI.execute { sampleEnv with net := netFail } "s" "u" .null).2) ∧
    ((∃ e, (Thrown.provider ⟨.providerError, "CloudflareWorkersAI", some 500,
         "Cloudflare Workers AI request failed with status 500",
         "Cloudflare Workers AI request failed with status 500"⟩) = .provider e) ∨
     (∃ m, (Thrown.provider ⟨.providerError, "CloudflareWorkersAI", some 500,
         "Cloudflare Workers AI request failed with status 500",
         "Cloudflare Workers AI request failed with status 500"⟩) = .plain m ∧
       (ConfigHelper.readAIProviderConfig sampleParse (some "CFG") ⟨none, none⟩ = .error m ∨
        m = "Cloudflare Workers AI returned an empty response" ∨
        ∃ c, m = "Cloudflare Workers AI returned non-JSON content: " ++ c))) :=
  ⟨rfl,
   C1_throw_classification { sampleEnv with net := netFail } "s" "u" .null _ _ rfl⟩

/-- Claim C1 counterexample: a successful upstream call whose payload has no
message content makes `execute` throw the plain (unclassified)
empty-response `Error`, not an `AIProviderError`. -/
theorem C1_counterexample :
    (CloudflareWorkersAI.execute { sampleEnv with net := netEmpty } "s" "u" .null).1 =
      .error (.plain "Cloudflare Workers AI returned an empty response") ∧
    ∀ e : AIProviderError,
      Thrown.plain "Cloudflare Workers AI returned an empty response" ≠ .provider e :=
  ⟨rfl, fun _ h => Thrown.noConfusion h⟩

/-- Claim C9: with a usable cloudflare configuration, `execute` issues at most
two upstream requests; the first carries the `response_format` object
around the normalized schema; a second is issued only when the first
response is not ok, has no `response_format`, and appends the stricter
JSON-only instruction to the user prompt; when both fail the thrown
classified error carries the second attempt's HTTP status and message;
when either succeeds, that attempt's message content is parsed as the
result (a content-parse failure propagating as the plain error). -/
theorem C9_two_attempts (env : CloudflareWorkersAI.Env) (sp up : String) (schema : Json)
    (cfg : ConfigHelper.AIProviderConfigEntry) (st2 : ConfigHelper.CacheState)
    (hlookup : ConfigHelper.findAIProviderByService env.parse env.raw env.cache "cloudflare" =
      .ok (some cfg, st2))
    (hkey : ¬cfg.apiKey = "") (hmodel : ¬cfg.model = "")
    (body1 body2 : CloudflareWorkersAI.RequestBody)
    (r1 r2 : CloudflareWorkersAI.CFResult)
    (hb1 : body1 = ⟨cfg.model, [⟨"system", sp⟩, ⟨"user", up⟩],
        some (CloudflareWorkersAI.responseFormatFor (env.normalize schema))⟩)
    (hb2 : body2 = ⟨cfg.model,
        [⟨"system", sp⟩,
         ⟨"user", up ++ "\n\nResponde SOLO con JSON válido y sin texto adicional."⟩],
        none⟩)
    (hr1 : r1 = CloudflareWorkersAI.requestCloudflare env.parse env.now env.dateParse env.net
        (CloudflareWorkersAI.extractCloudflareCredentials cfg.apiKey).2
        (CloudflareWorkersAI.extractCloudflareCredentials cfg.apiKey).1 body1)
    (hr2 : r2 = CloudflareWorkersAI.requestCloudflare env.parse env.now env.dateParse env.net
        (CloudflareWorkersAI.extractCloudflareCredentials cfg.apiKey).2
        (CloudflareWorkersAI.extractCloudflareCredentials cfg.apiKey).1 body2) :
    (CloudflareWorkersAI.execute env sp up schema).2.length ≤ 2 ∧
    (r1.ok = true →
       CloudflareWorkersAI.execute env sp up schema =
         ((match CloudflareWorkersAI.parseResponseContent env.parse r1.payload with
           | .ok d => .ok ⟨d, { r1.meta with model := some cfg.model }⟩
           | .error m => .error (.plain m)),
          [body1])) ∧
    (¬r1.ok = true → r2.ok = true →
       CloudflareWorkersAI.execute env sp up schema =
         ((match CloudflareWorkersAI.parseResponseContent env.parse r2.payload with
           | .ok d => .ok ⟨d, { r2.meta with model := some cfg.model }⟩
           | .error m => .error (.plain m)),
          [body1, body2])) ∧
    (¬r1.ok = true → ¬r2.ok = true →
       CloudflareWorkersAI.execute env sp up schema =
         (.error (.provider (buildAIProviderError
            ⟨"CloudflareWorkersAI", some r2.status, r2.message⟩)),
          [body1, body2])) := by
  subst hb1 hb2 hr1 hr2
  refine ⟨?_, ?_, ?_, ?_⟩
  · by_cases h1 : (CloudflareWorkersAI.requestCloudflare env.parse env.now env.dateParse
        env.net (CloudflareWorkersAI.extractCloudflareCredentials cfg.apiKey).2
        (CloudflareWorkersAI.extractCloudflareCredentials cfg.apiKey).1
        ⟨cfg.model, [⟨"system", sp⟩, ⟨"user", up⟩],
         some (CloudflareWorkersAI.responseFormatFor (env.normalize schema))⟩).ok = true
    · simp only [CloudflareWorkersAI.execute, hlookup]
      rw [if_neg hkey, if_neg hmodel, if_pos h1]
      cases hp : CloudflareWorkersAI.parseResponseContent env.parse
          (CloudflareWorkersAI.requestCloudflare env.parse env.now env.dateParse
            env.net (CloudflareWorkersAI.extractCloudflareCredentials cfg.apiKey).2
            (CloudflareWorkersAI.extractCloudflareCredentials cfg.apiKey).1
            ⟨cfg.model, [⟨"system", sp⟩, ⟨"user", up⟩],
             some (CloudflareWorkersAI.responseFormatFor (env.normalize schema))⟩).payload <;>
        simp
    · simp only [CloudflareWorkersAI.execute, hlookup]
      rw [if_neg hkey, if_neg hmodel, if_neg h1]
      by_cases h2 : (CloudflareWorkersAI.requestCloudflare env.parse env.now env.dateParse
          env.net (CloudflareWorkersAI.extractCloudflareCredentials cfg.apiKey).2
          (CloudflareWorkersAI.extractCloudflareCredentials cfg.apiKey).1
          ⟨cfg.model,
           [⟨"system", sp⟩,
            ⟨"user", up ++ "\n\nResponde SOLO con JSON válido y sin texto adicional."⟩],
           none⟩).ok = true
      · rw [if_pos h2]
        cases hp : CloudflareWorkersAI.parseResponseContent env.parse
            (CloudflareWorkersAI.requestCloudflare env.parse env.now env.dateParse
              env.net (CloudflareWorkersAI.extractCloudflareCredentials cfg.apiKey).2
              (CloudflareWorkersAI.extractCloudflareCredentials cfg.apiKey).1
              ⟨cfg.model,
               [⟨"system", sp⟩,
                ⟨"user", up ++ "\n\nResponde SOLO con JSON válido y sin texto adicional."⟩],
               none⟩).payload <;>
          simp
      · rw [if_neg h2]
        simp
  · intro h1
    simp only [CloudflareWorkersAI.execute, hlookup]
    rw [if_neg hkey, if_neg hmodel, if_pos h1]
    cases hp : CloudflareWorkersAI.parseResponseContent env.parse
        (CloudflareWorkersAI.requestCloudflare env.parse env.now env.dateParse
          env.net (CloudflareWorkersAI.extractCloudflareCredentials cfg.apiKey).2
          (CloudflareWorkersAI.extractCloudflareCredentials cfg.apiKey).1
          ⟨cfg.model, [⟨"system", sp⟩, ⟨"user", up⟩],
           some (CloudflareWorkersAI.responseFormatFor (env.normalize schema))⟩).payload <;>
      rfl
  · intro h1 h2
    simp only [CloudflareWorkersAI.execute, hlookup]
    rw [if_neg hkey, if_neg hmodel, if_neg h1, if_pos h2]
    cases hp : CloudflareWorkersAI.parseResponseContent env.parse
        (CloudflareWorkersAI.requestCloudflare env.parse env.now env.dateParse
          env.net (CloudflareWorkersAI.extractCloudflareCredentials cfg.apiKey).2
          (CloudflareWorkersAI.extractCloudflareCredentials cfg.apiKey).1
          ⟨cfg.model,
           [⟨"system", sp⟩,
            ⟨"user", up ++ "\n\nResponde SOLO con JSON válido y sin texto adicional."⟩],
           none⟩).payload <;>
      rfl
  · intro h1 h2
    simp only [CloudflareWorkersAI.execute, hlookup]
    rw [if_neg hkey, if_neg hmodel, if_neg h1, if_neg h2]

/-- Witness for C9: with an oracle that rejects the structured-output
attempt, `execute` issues exactly the two described requests and returns
the second attempt's parsed content. -/
theorem C9_two_attempts_witness :
    ((CloudflareWorkersAI.execute { sampleEnv with net := netFirstFails } "s" "u"
        .null).2.length ≤ 2) ∧
    CloudflareWorkersAI.execute { sampleEnv with net := netFirstFails } "s" "u" .null =
      (.ok ⟨.obj [("a", .num 1)], ⟨some "llama", some 7, some 88, some 61000⟩⟩,
       [⟨"llama", [⟨"system", "s"⟩, ⟨"user", "u"⟩],
         some (CloudflareWorkersAI.responseFormatFor .null)⟩,
        ⟨"llama", [⟨"system", "s"⟩,
          ⟨"user", "u" ++ "\n\nResponde SOLO con JSON válido y sin texto adicional."⟩],
         none⟩]) :=
  ⟨(C9_two_attempts { sampleEnv with net := netFirstFails } "s" "u" .null sampleParsed
      ⟨some "CFG", some [sampleParsed, sampleParsed2]⟩ rfl (by decide) (by decide)
      _ _ _ _ rfl rfl rfl rfl).1,
   ((C9_two_attempts { sampleEnv with net := netFirstFails } "s" "u" .null sampleParsed
      ⟨some "CFG", some [sampleParsed, sampleParsed2]⟩ rfl (by decide) (by decide)
      _ _ _ _ rfl rfl rfl rfl).2.2.1 (by decide) (by decide)).trans rfl⟩
